import Mathlib

/-
Verification development for the MCP (Model Context Protocol) core of this
repository: the Lambda-side JSON-RPC responder (mcp_lambda.py), the MCP
session client (bot.py, class MCPClient) and the tool-dispatch loop
(bot.py, chat_with_llm).  Python values parsed from JSON are modelled by
the inductive type Json below; Python exceptions are modelled with Except,
where the carried string models str(e).  Exact interpreter message texts
(TypeError, AttributeError, JSONDecodeError) are abstracted to fixed
strings, since the code only ever embeds them into larger error strings.
-/

set_option maxRecDepth 10000

/-- Model of a parsed JSON value (a Python object produced by json.loads).
Python None is modelled by Json.null.  Numeric literals are modelled as
integers; float syntax is outside the scope of this development (none of
the code under verification produces or consumes JSON floats). -/
inductive Json where
  | null : Json
  | bool : Bool → Json
  | num : Int → Json
  | str : String → Json
  | arr : List Json → Json
  | obj : List (String × Json) → Json

/-- Lookup of a key in an object field list.  The last binding wins, which
models the behaviour of a Python dict built by json.loads when a key is
repeated (later occurrences override earlier ones). -/
def lookupLast (fs : List (String × Json)) (k : String) : Option Json :=
  match fs with
  | [] => none
  | (k2, v) :: rest =>
    match lookupLast rest k with
    | some r => some r
    | none => if k2 == k then some v else none

/-- Python membership test `k in d` for a dict. -/
def pyKeyMem (fs : List (String × Json)) (k : String) : Bool :=
  fs.any (fun f => f.1 == k)

/-- Key access on a JSON value: field of an object, none otherwise. -/
def Json.getKey? (j : Json) (k : String) : Option Json :=
  match j with
  | .obj fs => lookupLast fs k
  | _ => none

def Json.isObj (j : Json) : Bool :=
  match j with
  | .obj _ => true
  | _ => false

def Json.isStr (j : Json) : Bool :=
  match j with
  | .str _ => true
  | _ => false

/-- A Python str is one of the modelled Python values; the coercion lets a
string-valued result be written directly where a value is expected. -/
instance : Coe String Json := ⟨Json.str⟩

/-- True when the value is the given string (Python == against a string,
which is false for values of any other type). -/
def Json.isStrVal (j : Json) (s : String) : Bool :=
  match j with
  | .str v => v == s
  | _ => false

/-- JSON string escaping as performed by json.dumps for the characters the
code can produce. -/
def escapeJsonChar (c : Char) : String :=
  if c == '"' then "\\\""
  else if c == '\\' then "\\\\"
  else if c == '\n' then "\\n"
  else if c == '\t' then "\\t"
  else if c == '\r' then "\\r"
  else String.singleton c

def escapeJsonString (s : String) : String :=
  String.join (s.data.map escapeJsonChar)

mutual

/-- Model of json.dumps.  Separators are the Python defaults for a dict
literal, a comma-space and a colon-space; the pretty-printing performed by
the indent argument in the source only changes whitespace and is abstracted
to this single serialization. -/
def Json.dumps : Json → String
  | .null => "null"
  | .bool true => "true"
  | .bool false => "false"
  | .num n => toString n
  | .str s => "\"" ++ escapeJsonString s ++ "\""
  | .arr xs => "[" ++ Json.dumpsArr xs ++ "]"
  | .obj fs => "\x7b" ++ Json.dumpsObj fs ++ "\x7d"

def Json.dumpsArr : List Json → String
  | [] => ""
  | [x] => Json.dumps x
  | x :: y :: rest => Json.dumps x ++ ", " ++ Json.dumpsArr (y :: rest)

def Json.dumpsObj : List (String × Json) → String
  | [] => ""
  | [(k, v)] => "\"" ++ escapeJsonString k ++ "\": " ++ Json.dumps v
  | (k, v) :: f :: rest =>
    "\"" ++ escapeJsonString k ++ "\": " ++ Json.dumps v ++ ", " ++ Json.dumpsObj (f :: rest)

end

/-- Python str() applied to a parsed-JSON value, as used by f-string
formatting.  The repr-style formatting Python applies to containers is
abstracted to JSON serialization; no claim depends on that case. -/
def pyStr (j : Json) : String :=
  match j with
  | .str s => s
  | .bool true => "True"
  | .bool false => "False"
  | .null => "None"
  | .num n => toString n
  | v => Json.dumps v

/-- Whitespace recognised by both json.loads skipping and str.strip. -/
def isWsChar (c : Char) : Bool :=
  c == ' ' || c == '\n' || c == '\t' || c == '\r'

def skipWs : List Char → List Char
  | [] => []
  | c :: cs => if isWsChar c then skipWs cs else c :: cs

/-- Python str.strip(). -/
def pyStrip (s : String) : String :=
  String.mk (((s.data.dropWhile isWsChar).reverse.dropWhile isWsChar).reverse)

/-- Python str.split applied with a single newline separator. -/
def splitNlAux : List Char → List Char → List String
  | [], acc => [String.mk acc.reverse]
  | c :: cs, acc =>
    if c == '\n' then String.mk acc.reverse :: splitNlAux cs []
    else splitNlAux cs (c :: acc)

def pySplitNl (s : String) : List String :=
  splitNlAux s.data []

/-- Python str.startswith. -/
def pyStartsWith (s pre : String) : Bool :=
  pre.data.isPrefixOf s.data

/-- Python slicing s[n:]. -/
def pyDrop (s : String) (n : Nat) : String :=
  String.mk (s.data.drop n)

def listIsInfix (needle : List Char) : List Char → Bool
  | [] => needle.isEmpty
  | c :: rest => needle.isPrefixOf (c :: rest) || listIsInfix needle rest

/-- Python substring membership `needle in hay`. -/
def strContains (hay needle : String) : Bool :=
  listIsInfix needle.data hay.data

def digitVal (c : Char) : Option Nat :=
  if '0' ≤ c ∧ c ≤ '9' then some (c.toNat - 48) else none

def hexVal (c : Char) : Option Nat :=
  if '0' ≤ c ∧ c ≤ '9' then some (c.toNat - 48)
  else if 'a' ≤ c ∧ c ≤ 'f' then some (c.toNat - 97 + 10)
  else if 'A' ≤ c ∧ c ≤ 'F' then some (c.toNat - 65 + 10)
  else none

def parseDigitsAux (acc : Nat) : List Char → Nat × List Char
  | [] => (acc, [])
  | c :: cs =>
    match digitVal c with
    | some d => parseDigitsAux (acc * 10 + d) cs
    | none => (acc, c :: cs)

/-- Parse one or more decimal digits. -/
def parseDigits : List Char → Option (Nat × List Char)
  | [] => none
  | c :: cs =>
    match digitVal c with
    | some d => some (parseDigitsAux d cs)
    | none => none

/-- Parse the body of a JSON string literal, after the opening quote,
returning the decoded characters and the input after the closing quote. -/
def parseStringBody : List Char → Option (List Char × List Char)
  | [] => none
  | '"' :: rest => some ([], rest)
  | '\\' :: 'u' :: h1 :: h2 :: h3 :: h4 :: rest =>
    match hexVal h1, hexVal h2, hexVal h3, hexVal h4 with
    | some a, some b, some c, some d =>
      let code := ((a * 16 + b) * 16 + c) * 16 + d
      if 0xd800 ≤ code ∧ code ≤ 0xdfff then none
      else
        match parseStringBody rest with
        | some (content, rest2) => some (Char.ofNat code :: content, rest2)
        | none => none
    | _, _, _, _ => none
  | '\\' :: e :: rest =>
    let dec : Option Char :=
      if e == '"' then some '"'
      else if e == '\\' then some '\\'
      else if e == '/' then some '/'
      else if e == 'n' then some '\n'
      else if e == 't' then some '\t'
      else if e == 'r' then some '\r'
      else if e == 'b' then some (Char.ofNat 8)
      else if e == 'f' then some (Char.ofNat 12)
      else none
    match dec with
    | some c =>
      match parseStringBody rest with
      | some (content, rest2) => some (c :: content, rest2)
      | none => none
    | none => none
  | c :: rest =>
    match parseStringBody rest with
    | some (content, rest2) => some (c :: content, rest2)
    | none => none

mutual

/-- Recursive-descent JSON value parser (fuelled). -/
def parseValue : Nat → List Char → Option (Json × List Char)
  | 0, _ => none
  | fuel + 1, cs =>
    match skipWs cs with
    | 'n' :: 'u' :: 'l' :: 'l' :: rest => some (Json.null, rest)
    | 't' :: 'r' :: 'u' :: 'e' :: rest => some (Json.bool true, rest)
    | 'f' :: 'a' :: 'l' :: 's' :: 'e' :: rest => some (Json.bool false, rest)
    | '"' :: rest =>
      match parseStringBody rest with
      | some (content, rest2) => some (Json.str (String.mk content), rest2)
      | none => none
    | '[' :: rest =>
      match parseArrayItems fuel rest with
      | some (xs, rest2) => some (Json.arr xs, rest2)
      | none => none
    | '\x7b' :: rest =>
      match parseObjectItems fuel rest with
      | some (fs, rest2) => some (Json.obj fs, rest2)
      | none => none
    | '-' :: rest =>
      match parseDigits rest with
      | some (n, rest2) => some (Json.num (-(Int.ofNat n)), rest2)
      | none => none
    | cs2 =>
      match parseDigits cs2 with
      | some (n, rest2) => some (Json.num (Int.ofNat n), rest2)
      | none => none

/-- Array contents, after the opening bracket. -/
def parseArrayItems : Nat → List Char → Option (List Json × List Char)
  | 0, _ => none
  | fuel + 1, cs =>
    match skipWs cs with
    | ']' :: rest => some ([], rest)
    | cs2 => parseArrayTail fuel cs2

/-- One array element followed by a comma-separated tail or the close. -/
def parseArrayTail : Nat → List Char → Option (List Json × List Char)
  | 0, _ => none
  | fuel + 1, cs =>
    match parseValue fuel cs with
    | none => none
    | some (v, rest) =>
      match skipWs rest with
      | ',' :: rest2 =>
        match parseArrayTail fuel rest2 with
        | some (vs, rest3) => some (v :: vs, rest3)
        | none => none
      | ']' :: rest2 => some ([v], rest2)
      | _ => none

/-- Object contents, after the opening brace. -/
def parseObjectItems : Nat → List Char → Option (List (String × Json) × List Char)
  | 0, _ => none
  | fuel + 1, cs =>
    match skipWs cs with
    | '\x7d' :: rest => some ([], rest)
    | cs2 => parseObjectTail fuel cs2

/-- One object field followed by a comma-separated tail or the close. -/
def parseObjectTail : Nat → List Char → Option (List (String × Json) × List Char)
  | 0, _ => none
  | fuel + 1, cs =>
    match skipWs cs with
    | '"' :: rest =>
      match parseStringBody rest with
      | none => none
      | some (key, rest2) =>
        match skipWs rest2 with
        | ':' :: rest3 =>
          match parseValue fuel rest3 with
          | none => none
          | some (v, rest4) =>
            match skipWs rest4 with
            | ',' :: rest5 =>
              match parseObjectTail fuel rest5 with
              | some (fs, rest6) => some ((String.mk key, v) :: fs, rest6)
              | none => none
            | '\x7d' :: rest5 => some ([(String.mk key, v)], rest5)
            | _ => none
        | _ => none
    | _ => none

end

/-- Model of json.loads: none models a raised json.JSONDecodeError. -/
def Json.loads (s : String) : Option Json :=
  match parseValue (2 * s.length + 8) s.data with
  | some (j, rest) =>
    match skipWs rest with
    | [] => some j
    | _ => none
  | none => none

/-- Abstracted interpreter message of a raised TypeError. -/
def pyTypeErrorMsg : String := "TypeError"

/-- Abstracted interpreter message of a raised AttributeError. -/
def pyAttributeErrorMsg : String := "AttributeError"

/-- Abstracted interpreter message of a raised json.JSONDecodeError. -/
def jsonDecodeMsg : String := "JSONDecodeError"

/-- Abstracted interpreter message of a raised binascii or unicode error
from base64 decoding. -/
def b64ErrorMsg : String := "binascii.Error"

/-- Python membership test `key in v` for a string key against a parsed
JSON value: key membership on a dict, substring test on a string, element
membership on a list, and a raised TypeError on any other value. -/
def pyInKey (key : String) (v : Json) : Except String Bool :=
  match v with
  | .obj fs => .ok (pyKeyMem fs key)
  | .str s => .ok (strContains s key)
  | .arr xs => .ok (xs.any (fun x => match x with | .str s => s == key | _ => false))
  | _ => .error pyTypeErrorMsg

/-- Python subscript v[key] with a string key: field of a dict (KeyError
when absent), a raised TypeError on any other value. -/
def pyIndexKey (key : String) (v : Json) : Except String Json :=
  match v with
  | .obj fs =>
    match lookupLast fs key with
    | some x => .ok x
    | none => .error ("KeyError: " ++ key)
  | _ => .error pyTypeErrorMsg

/-- Python v.get(key, default): dict method returning the field or the
default; a raised AttributeError on any non-dict value. -/
def pyGet (v : Json) (key : String) (dflt : Json) : Except String Json :=
  match v with
  | .obj fs => .ok ((lookupLast fs key).getD dflt)
  | _ => .error pyAttributeErrorMsg

/-- Value of one base64 alphabet character. -/
def b64CharVal (c : Char) : Option Nat :=
  if 'A' ≤ c ∧ c ≤ 'Z' then some (c.toNat - 65)
  else if 'a' ≤ c ∧ c ≤ 'z' then some (c.toNat - 97 + 26)
  else if '0' ≤ c ∧ c ≤ '9' then some (c.toNat - 48 + 52)
  else if c == '+' then some 62
  else if c == '/' then some 63
  else none

/-- Turn a run of 6-bit groups into bytes; a single leftover group is an
error, matching the padding check of base64.b64decode. -/
def b64Bytes : List Nat → Option (List Nat)
  | [] => some []
  | [_] => none
  | [a, b] => some [(a * 4 + b / 16) % 256]
  | [a, b, c] => some [a * 4 + b / 16, (b % 16) * 16 + c / 4]
  | a :: b :: c :: d :: rest =>
    match b64Bytes rest with
    | some bs => some ((a * 4 + b / 16) :: ((b % 16) * 16 + c / 4) :: ((c % 4) * 64 + d) :: bs)
    | none => none

/-- UTF-8 decoding of a byte list, as performed by bytes.decode; none
models a raised UnicodeDecodeError. -/
def utf8Decode : List Nat → Option (List Char)
  | [] => some []
  | b :: rest =>
    if b < 0x80 then
      match utf8Decode rest with
      | some cs => some (Char.ofNat b :: cs)
      | none => none
    else if 0xc2 ≤ b ∧ b < 0xe0 then
      match rest with
      | c :: rest2 =>
        if 0x80 ≤ c ∧ c < 0xc0 then
          match utf8Decode rest2 with
          | some cs => some (Char.ofNat ((b - 0xc0) * 64 + (c - 0x80)) :: cs)
          | none => none
        else none
      | _ => none
    else if 0xe0 ≤ b ∧ b < 0xf0 then
      match rest with
      | c :: d :: rest2 =>
        if (0x80 ≤ c ∧ c < 0xc0) ∧ (0x80 ≤ d ∧ d < 0xc0) then
          let code := (b - 0xe0) * 4096 + (c - 0x80) * 64 + (d - 0x80)
          if code < 0x800 ∨ (0xd800 ≤ code ∧ code ≤ 0xdfff) then none
          else
            match utf8Decode rest2 with
            | some cs => some (Char.ofNat code :: cs)
            | none => none
        else none
      | _ => none
    else if 0xf0 ≤ b ∧ b < 0xf5 then
      match rest with
      | c :: d :: e :: rest2 =>
        if (0x80 ≤ c ∧ c < 0xc0) ∧ (0x80 ≤ d ∧ d < 0xc0) ∧ (0x80 ≤ e ∧ e < 0xc0) then
          let code := (b - 0xf0) * 262144 + (c - 0x80) * 4096 + (d - 0x80) * 64 + (e - 0x80)
          if code < 0x10000 ∨ 0x10ffff < code then none
          else
            match utf8Decode rest2 with
            | some cs => some (Char.ofNat code :: cs)
            | none => none
        else none
      | _ => none
    else none

/-- Model of base64.b64decode(body).decode().  A non-ASCII character makes
the implicit str.encode of b64decode raise a ValueError; ASCII characters
outside the base64 alphabet are discarded as by validate=False; the data
must then be correctly padded (the alphabet-character count m must not be
1 mod 4, and m plus the padding count must be a multiple of 4, else
binascii raises Incorrect padding); the 6-bit groups are reassembled into
bytes and UTF-8 decoded.  none models any of these raised exceptions. -/
def pyB64DecodeUtf8 (s : String) : Option String :=
  if s.data.any (fun c => 128 ≤ c.toNat) then none
  else
    let alpha := s.data.filterMap b64CharVal
    let pad := (s.data.filter (fun c => c == '=')).length
    if alpha.length % 4 == 1 ∨ (alpha.length + pad) % 4 ≠ 0 then none
    else
      match b64Bytes alpha with
      | some bytes =>
        match utf8Decode bytes with
        | some cs => some (String.mk cs)
        | none => none
      | none => none

/-- Inbound Lambda transport event: the raw body string and the flag
telling whether the transport base64-encoded it. -/
structure LambdaEvent where
  body : String
  isBase64Encoded : Bool

/-- Outbound Lambda transport envelope. -/
structure LambdaResponse where
  statusCode : Nat
  contentType : String
  body : String

/-- A registered tool callable: receives the arguments object expanded as
keyword arguments; Except.error models a raised exception carrying str(e). -/
def McpToolFn : Type := List (String × Json) → Except String Json

/-- The tool registry of a server instance (the self.tools dict); keys are
unique for any registry built by the registration decorator. -/
def Registry : Type := List (String × McpToolFn)

namespace McpLambdaServer

/-- Models McpLambdaServer._response. -/
def responseEnvelope (req_id : Json) (result : Json) : LambdaResponse :=
  { statusCode := 200
    contentType := "application/json"
    body := Json.dumps (Json.obj
      [("jsonrpc", Json.str "2.0"), ("result", result), ("id", req_id)]) }

/-- Models McpLambdaServer._error. -/
def errorEnvelope (req_id : Json) (message : String) : LambdaResponse :=
  { statusCode := 200
    contentType := "application/json"
    body := Json.dumps (Json.obj
      [("jsonrpc", Json.str "2.0"),
       ("error", Json.obj [("message", Json.str message)]),
       ("id", req_id)]) }

/-- Dict lookup self.tools[name] guarded by `name not in self.tools`: a
string is looked up, other hashable values are simply absent, and an
unhashable value (list or dict) raises a TypeError. -/
def toolLookup (tools : Registry) : Json → Except String (Option McpToolFn)
  | .str s =>
    .ok (match tools.find? (fun kv => kv.1 == s) with
         | some kv => some kv.2
         | none => none)
  | .arr _ => .error pyTypeErrorMsg
  | .obj _ => .error pyTypeErrorMsg
  | _ => .ok none

/-- True when a parsed JSON value is hashable in Python (a list or dict
value used as a dict key raises a TypeError). -/
def jsonHashable (v : Json) : Bool :=
  match v with
  | .arr _ => false
  | .obj _ => false
  | _ => true

/-- Models self.tools[name](**args): keyword expansion of a non-dict value
raises a TypeError; a raise inside the callable is the callable's own error. -/
def callKwargs (fn : McpToolFn) (args : Json) : Except String Json :=
  match args with
  | .obj fs => fn fs
  | _ => .error pyTypeErrorMsg

/-- Body decoding of McpLambdaServer.handle, lines 15 to 18: base64-decode
first when the transport flagged the body as encoded. -/
def decodeEventBody (event : LambdaEvent) : Except String String :=
  if event.isBase64Encoded then
    match pyB64DecodeUtf8 event.body with
    | some s => .ok s
    | none => .error b64ErrorMsg
  else .ok event.body

/-- Dispatch of one parsed JSON-RPC request, McpLambdaServer.handle lines
22 to 44.  An Except.error is a Python exception escaping handle: the
method, id and params lookups are not inside any try block in the source,
so an AttributeError on a non-object request or params propagates. -/
def handleRequest (tools : Registry) (request : Json) : Except String LambdaResponse :=
  (pyGet request "method" Json.null).bind (fun method =>
    (pyGet request "id" Json.null).bind (fun req_id =>
    if method.isStrVal "tools/list" then
      .ok (responseEnvelope req_id (Json.obj
        [("tools", Json.arr (tools.map (fun kv => Json.obj [("name", Json.str kv.1)])))]))
    else if method.isStrVal "tools/call" then
      (pyGet request "params" (Json.obj [])).bind (fun params =>
      (pyGet params "name" Json.null).bind (fun name =>
      (pyGet params "arguments" (Json.obj [])).bind (fun args =>
      (toolLookup tools name).bind (fun fn? =>
      match fn? with
      | none => .ok (errorEnvelope req_id ("Unknown tool: " ++ pyStr name))
      | some fn =>
        match callKwargs fn args with
        | .ok result => .ok (responseEnvelope req_id result)
        | .error e => .ok (errorEnvelope req_id e)))))
    else .ok (errorEnvelope req_id ("Unknown method: " ++ pyStr method))))

/-- Models McpLambdaServer.handle: decode the transport body, parse it as
JSON (a parse failure raises out of handle, there is no try around
json.loads in the source), then dispatch. -/
def handle (tools : Registry) (event : LambdaEvent) : Except String LambdaResponse :=
  (decodeEventBody event).bind (fun body =>
  match Json.loads body with
  | none => .error jsonDecodeMsg
  | some request => handleRequest tools request)

end McpLambdaServer

/-- Mutable state of an MCPClient instance. -/
structure ClientState where
  base_url : String
  session_id : Option String
  request_id : Nat
  initialized : Bool

/-- Python str.rstrip over one character, as used on the base URL. -/
def pyRStrip (s : String) (c : Char) : String :=
  String.mk ((s.data.reverse.dropWhile (fun x => x == c)).reverse)

/-- Models MCPClient.__init__. -/
def mcpClientInit (base_url : String) : ClientState :=
  { base_url := pyRStrip base_url '/'
    session_id := none
    request_id := 0
    initialized := false }

/-- One JSON-RPC POST issued by the client: the payload and the value of
the Mcp-Session-Id header if one was attached. -/
structure SentRequest where
  payload : Json
  sessionHeader : Option String

/-- Outcome of one HTTP POST, supplied by the environment: either the
transport raises (an httpx.HTTPError such as a connection error or
timeout), or a response arrives with a status code, a content-type header,
an optional Mcp-Session-Id header and a body text. -/
inductive HttpOutcome where
  | transportError (msg : String)
  | response (status : Nat) (contentType : String) (sessionHeader : Option String) (body : String)

/-- The header dict built by `if self.session_id: headers[...] = ...`: the
session id is attached only when truthy (present and non-empty). -/
def sessionHeaderOf (sid : Option String) : Option String :=
  match sid with
  | some s => if s == "" then none else some s
  | none => none

/-- Session-id capture from the initialize response, lines 204 to 209 of
bot.py: a truthy header value replaces the stored session id, anything
else leaves it unchanged. -/
def captureSession (st : ClientState) (hdr : Option String) : ClientState :=
  match hdr with
  | some s => if s == "" then st else { st with session_id := some s }
  | none => st

/-- The JSON-RPC initialize request payload (bot.py lines 183 to 195). -/
def initPayload : Json :=
  Json.obj
    [("jsonrpc", Json.str "2.0"),
     ("method", Json.str "initialize"),
     ("params", Json.obj
       [("protocolVersion", Json.str "2025-03-26"),
        ("capabilities", Json.obj []),
        ("clientInfo", Json.obj
          [("name", Json.str "aws-news-slack-bot"),
           ("version", Json.str "1.0.0")])]),
     ("id", Json.num 0)]

/-- The one-way initialized notification payload (bot.py lines 238 to 241). -/
def initializedNotification : Json :=
  Json.obj
    [("jsonrpc", Json.str "2.0"),
     ("method", Json.str "notifications/initialized")]

/-- The first POST of the handshake; the source passes no explicit headers
on it, so no session header is attached. -/
def initSentReq : SentRequest :=
  { payload := initPayload, sessionHeader := none }

def notifSentReq (st : ClientState) : SentRequest :=
  { payload := initializedNotification, sessionHeader := sessionHeaderOf st.session_id }

/-- Content handling of the initialize response, bot.py lines 212 to 234:
an SSE content type counts as success outright; otherwise the body is
parsed as JSON and probed for result and error keys with Python membership
semantics.  Except.error models an exception (parse failure or TypeError),
which the enclosing try converts to a False return. -/
def initContentCheck (contentType body : String) : Except String Bool :=
  if strContains contentType "text/event-stream" then .ok true
  else
    match Json.loads body with
    | none => .error jsonDecodeMsg
    | some result =>
      (pyInKey "result" result).bind (fun hasResult =>
        if hasResult then .ok true
        else
          (pyInKey "error" result).bind (fun _ => .ok false))

/-- Models MCPClient.initialize.  The two HttpOutcome arguments are the
environment responses to the initialize POST and to the initialized
notification POST (the second is consulted only when the handshake body
succeeded).  Returns the Python return value, the updated client state and
the list of POSTs attempted. -/
def initSessionBody (st1 : ClientState) (ct body : String) (o2 : HttpOutcome) :
    Bool × ClientState × List SentRequest :=
  match initContentCheck ct body with
  | .error _ => (false, st1, [initSentReq])
  | .ok false => (false, st1, [initSentReq])
  | .ok true =>
    match o2 with
    | .transportError _ => (false, st1, [initSentReq, notifSentReq st1])
    | .response _ _ _ _ =>
      (true, { st1 with initialized := true }, [initSentReq, notifSentReq st1])

def initSession (st : ClientState) (o1 o2 : HttpOutcome) :
    Bool × ClientState × List SentRequest :=
  if st.initialized then (true, st, [])
  else
    match o1 with
    | .transportError _ => (false, st, [initSentReq])
    | .response status ct hdr body =>
      if 200 ≤ status ∧ status < 300 then initSessionBody (captureSession st hdr) ct body o2
      else (false, st, [initSentReq])

/-- Extraction of result.content[0].text shared verbatim between the SSE
branch (lines 325 to 333) and the JSON branch (lines 352 to 363) of
call_tool: ok (some v) models the early return of the text value v, ok
none models falling through, and error models a raised exception: a
TypeError from the membership test or subscript on a malformed first
element, or from len(text) in the logging line when the text value has no
length (None, a boolean or a number); a string, list or dict text value
has a length and is returned raw. -/
def extractContentText (tool_result : Json) : Except String (Option Json) :=
  match tool_result with
  | .obj fs =>
    if pyKeyMem fs "content" then
      (pyIndexKey "content" tool_result).bind (fun content =>
        match content with
        | .arr (c0 :: _) =>
          (pyInKey "text" c0).bind (fun hasText =>
            if hasText then
              (pyIndexKey "text" c0).bind (fun text =>
                match text with
                | .null => .error pyTypeErrorMsg
                | .bool _ => .error pyTypeErrorMsg
                | .num _ => .error pyTypeErrorMsg
                | v => .ok (some v))
            else .ok none)
        | _ => .ok none)
    else .ok none
  | _ => .ok none

/-- Lines 365 to 372 of call_tool: an extracted text value is returned as
is; after a fall-through a string result is returned verbatim and anything
else is serialized. -/
def contentOrFallback (tool_result : Json) (found : Option Json) : Except String Json :=
  match found with
  | some v => .ok v
  | none =>
    match tool_result with
    | .str s => .ok (Json.str s)
    | _ => .ok (Json.str (Json.dumps tool_result))

/-- JSON branch of call_tool response handling, bot.py lines 341 to 375.
The returned value is the Python value call_tool would return: a string on
every path except a list- or dict-valued text field, which is returned
raw. -/
def handleJsonResult (result : Json) : Except String Json :=
  match result with
  | .obj fs =>
    if pyKeyMem fs "error" then
      (pyIndexKey "error" result).bind (fun err =>
        (pyGet err "message" (Json.str (pyStr err))).bind (fun error_msg =>
          .ok (Json.str ("Error from MCP server: " ++ pyStr error_msg))))
    else if pyKeyMem fs "result" then
      (pyIndexKey "result" result).bind (fun tool_result =>
        (extractContentText tool_result).bind (contentOrFallback tool_result))
    else .ok (Json.str (Json.dumps result))
  | _ => .ok (Json.str (Json.dumps result))

/-- One line of the SSE scan, bot.py lines 319 to 335: a non-data line or
an unparseable payload is skipped (the except clause catches only
json.JSONDecodeError), a parsed dict with a result key goes through the
shared content extraction. -/
def sseExtractLine (line : String) : Except String (Option Json) :=
  if pyStartsWith line "data: " then
    match Json.loads (pyDrop line 6) with
    | none => .ok none
    | some event_data =>
      match event_data with
      | .obj fs =>
        if pyKeyMem fs "result" then
          (pyIndexKey "result" event_data).bind extractContentText
        else .ok none
      | _ => .ok none
  else .ok none

/-- The for-loop over SSE lines: first extracted text value wins. -/
def sseScan : List String → Except String (Option Json)
  | [] => .ok none
  | l :: ls =>
    (sseExtractLine l).bind (fun found =>
      match found with
      | some v => .ok (some v)
      | none => sseScan ls)

/-- SSE branch of call_tool response handling, bot.py lines 310 to 338. -/
def handleSseBody (body : String) : Except String Json :=
  (sseScan (pySplitNl (pyStrip body))).bind (fun found =>
    match found with
    | some v => .ok v
    | none => .ok (Json.str "Error: Could not parse SSE stream response"))

/-- Abstracted message of the httpx.HTTPStatusError raised by
raise_for_status on any non-2xx response. -/
def httpStatusMsg (status : Nat) : String :=
  "HTTP status " ++ toString status

/-- Exception classes distinguished by the two except clauses of
call_tool: httpx.HTTPError (transport and status errors) and every other
exception. -/
inductive PyExc where
  | httpError (msg : String)
  | other (msg : String)

/-- The try body of call_tool from the POST onward: raise_for_status, then
the content-type branch.  httpx raise_for_status raises an HTTPStatusError
for every non-2xx status, including 1xx and 3xx responses, so only a 2xx
response reaches body handling.  Except.error is an exception reaching the
except clauses. -/
def handleToolResponse (o : HttpOutcome) : Except PyExc Json :=
  match o with
  | .transportError m => .error (.httpError m)
  | .response status ct _ body =>
    if 200 ≤ status ∧ status < 300 then
      if strContains ct "text/event-stream" then
        match handleSseBody body with
        | .ok v => .ok v
        | .error m => .error (.other m)
      else
        match Json.loads body with
        | none => .error (.other jsonDecodeMsg)
        | some j =>
          match handleJsonResult j with
          | .ok v => .ok v
          | .error m => .error (.other m)
    else .error (.httpError (httpStatusMsg status))

/-- The value call_tool returns for a given response outcome, including
the two except clauses (lines 377 to 382): a string on every path except
the raw return of a list- or dict-valued text field. -/
def callToolResult (o : HttpOutcome) : Json :=
  match handleToolResponse o with
  | .ok v => v
  | .error (.httpError m) => Json.str ("Error calling tool: " ++ m)
  | .error (.other m) => Json.str ("Error: " ++ m)

/-- The tools/call JSON-RPC payload (bot.py lines 284 to 292). -/
def toolCallPayload (name : String) (arguments : Json) (id : Nat) : Json :=
  Json.obj
    [("jsonrpc", Json.str "2.0"),
     ("method", Json.str "tools/call"),
     ("params", Json.obj
       [("name", Json.str name), ("arguments", arguments)]),
     ("id", Json.num (Int.ofNat id))]

/-- Models MCPClient.call_tool.  When the session is not initialized the
handshake is attempted first with environment outcomes i1 and i2 and its
boolean result is discarded; the request id is pre-incremented
unconditionally, the tools/call request is posted with the session header
if one is (now) stored and truthy, and the response outcome o is handled.
Returns the returned value, the updated state and the POSTs attempted. -/
def call_tool (st : ClientState) (tool_name : String) (arguments : Json)
    (i1 i2 o : HttpOutcome) : Json × ClientState × List SentRequest :=
  let stInit := if st.initialized then st else (initSession st i1 i2).2.1
  let initReqs := if st.initialized then [] else (initSession st i1 i2).2.2
  let st2 : ClientState := { stInit with request_id := stInit.request_id + 1 }
  let req : SentRequest :=
    { payload := toolCallPayload tool_name arguments st2.request_id
      sessionHeader := sessionHeaderOf st2.session_id }
  (callToolResult o, st2, initReqs ++ [req])

/-- Input of one call_tool invocation: tool name, arguments and the
environment outcomes for the (possible) handshake POSTs and the tools/call
POST. -/
structure CallInput where
  name : String
  args : Json
  i1 : HttpOutcome
  i2 : HttpOutcome
  o : HttpOutcome

/-- All POSTs issued by a sequence of call_tool invocations on one session. -/
def callToolTrace (st : ClientState) : List CallInput → List SentRequest
  | [] => []
  | c :: rest =>
    let r := call_tool st c.name c.args c.i1 c.i2 c.o
    r.2.2 ++ callToolTrace r.2.1 rest

/-- True when a sent request is a tools/call request. -/
def isToolCallReq (r : SentRequest) : Bool :=
  match r.payload.getKey? "method" with
  | some (.str m) => m == "tools/call"
  | _ => false

/-- The id fields of the tools/call requests of a trace, in order. -/
def traceToolCallIds (reqs : List SentRequest) : List Json :=
  (reqs.filter isToolCallReq).map (fun r => (r.payload.getKey? "id").getD Json.null)

/-- One tool call requested by the model: id, function name and the raw
argument string. -/
structure ToolCall where
  id : String
  name : String
  arguments : String

/-- One model reply: optional text content and the requested tool calls
(an empty list models a falsy tool_calls attribute). -/
structure ModelReply where
  content : Option String
  tool_calls : List ToolCall

/-- A conversation message as appended by chat_with_llm. -/
inductive Message where
  | system (content : String)
  | user (content : String)
  | assistant (content : Option String) (tool_calls : List ToolCall)
  | tool (tool_call_id : String) (content : String)

/-- The assistant-turn record appended when the reply requests tool calls
(bot.py lines 450 to 464). -/
def assistantRecord (reply : ModelReply) : Message :=
  Message.assistant reply.content reply.tool_calls

/-- The per-call execution loop, bot.py lines 467 to 481: each argument
string is parsed as JSON (a parse failure raises out of the dispatch
iteration), the tool is called through the MCP client te, and one
tool-result message is appended. -/
def runToolCalls (te : String → Json → String) :
    List ToolCall → List Message → Except String (List Message)
  | [], msgs => .ok msgs
  | tc :: rest, msgs =>
    match Json.loads tc.arguments with
    | none => .error jsonDecodeMsg
    | some args => runToolCalls te rest (msgs ++ [Message.tool tc.id (te tc.name args)])

/-- The messages after one dispatch-loop iteration that saw tool calls:
the assistant record followed by one tool-result message per call. -/
def dispatchIterationMessages (te : String → Json → String)
    (msgs : List Message) (reply : ModelReply) : Except String (List Message) :=
  runToolCalls te reply.tool_calls (msgs ++ [assistantRecord reply])

/-- The fixed apology returned when the iteration cap is exhausted
(bot.py line 489). -/
def apologyMessage : String :=
  "I apologize, but I reached the maximum number of tool calls. Please try simplifying your question."

/-- The while loop of chat_with_llm (bot.py lines 429 to 489), with the
remaining iteration budget as fuel.  llm models the Azure OpenAI
completion call (Except.error is a raised exception, converted to the
returned error text by the except clause); te models
mcp_client.call_tool.  The second component instruments the loop with the
number of model calls performed; the source computes only the first. -/
def chatLoop (llm : List Message → Except String ModelReply)
    (te : String → Json → String) : Nat → List Message → Option String × Nat
  | 0, _ => (some apologyMessage, 0)
  | fuel + 1, msgs =>
    match llm msgs with
    | .error e => (some ("I encountered an error: " ++ e), 1)
    | .ok reply =>
      match reply.tool_calls with
      | [] => (reply.content, 1)
      | _ :: _ =>
        match dispatchIterationMessages te msgs reply with
        | .error e => (some ("I encountered an error: " ++ e), 1)
        | .ok msgs2 =>
          ((chatLoop llm te fuel msgs2).1, (chatLoop llm te fuel msgs2).2 + 1)

/-- The system message content of chat_with_llm (bot.py lines 404 to 419). -/
def systemPrompt : String :=
  "You are AWS News Bot, a helpful assistant that provides information about AWS services, announcements, and news.\n\nYou have access to tools that can fetch:\n1. AWS news and blog posts for specific services\n2. Latest AWS announcements from the official RSS feed\n\nWhen users ask about AWS news, announcements, or updates:\n- Use the appropriate tool to fetch current information\n- Provide concise, helpful summaries\n- Include relevant details like dates and service names\n- If asked about \"this week\" or recent news, use the since_date parameter\n\nBe conversational and helpful. If the question is not about AWS news, provide general assistance."

/-- The initial message sequence: system message, prior history, then the
user message (bot.py lines 422 to 424). -/
def initialMessages (user_message : String) (history : List Message) : List Message :=
  Message.system systemPrompt :: history ++ [Message.user user_message]

/-- Models chat_with_llm: the loop with max_iterations = 5. -/
def chat_with_llm (llm : List Message → Except String ModelReply)
    (te : String → Json → String)
    (user_message : String) (history : List Message) : Option String :=
  (chatLoop llm te 5 (initialMessages user_message history)).1

/-- An echo tool: returns its keyword argument x unchanged. -/
def echoTool : McpToolFn := fun fs =>
  match lookupLast fs "x" with
  | some v => .ok v
  | none => .error "missing argument x"

/-- The transport event carrying a tools/call request for echo with
arguments x = hi and request id 1. -/
def echoEvent : LambdaEvent :=
  { body := "\x7b\"jsonrpc\": \"2.0\", \"method\": \"tools/call\", \"params\": \x7b\"name\": \"echo\", \"arguments\": \x7b\"x\": \"hi\"\x7d\x7d, \"id\": 1\x7d"
    isBase64Encoded := false }

/-- An event whose body is not valid JSON. -/
def malformedEvent : LambdaEvent :=
  { body := "not json", isBase64Encoded := false }

/-- A tools/call event for a name that is not registered. -/
def unknownToolEvent : LambdaEvent :=
  { body := "\x7b\"jsonrpc\": \"2.0\", \"method\": \"tools/call\", \"params\": \x7b\"name\": \"nope\", \"arguments\": \x7b\x7d\x7d, \"id\": 7\x7d"
    isBase64Encoded := false }

/-- An event with a method the responder does not know. -/
def unknownMethodEvent : LambdaEvent :=
  { body := "\x7b\"jsonrpc\": \"2.0\", \"method\": \"resources/read\", \"id\": 8\x7d"
    isBase64Encoded := false }

/-- A tool that always raises. -/
def raisingTool : McpToolFn := fun _ => .error "boom from tool"

/-- A tools/call event for the raising tool. -/
def raisingToolEvent : LambdaEvent :=
  { body := "\x7b\"jsonrpc\": \"2.0\", \"method\": \"tools/call\", \"params\": \x7b\"name\": \"bad\", \"arguments\": \x7b\x7d\x7d, \"id\": 9\x7d"
    isBase64Encoded := false }

/-- A result whose content is a non-empty list whose first element is a
number: the membership test on it raises a TypeError in the source. -/
def malformedContentBody : String := "\x7b\"result\": \x7b\"content\": [5]\x7d\x7d"

def jsonOutcomeMalformed : HttpOutcome :=
  .response 200 "application/json" none malformedContentBody

def sseOutcomeMalformed : HttpOutcome :=
  .response 200 "text/event-stream" none ("data: " ++ malformedContentBody)

/-- A JSON success envelope with a well-formed text content item. -/
def goodTextBody : String :=
  "\x7b\"jsonrpc\": \"2.0\", \"result\": \x7b\"content\": [\x7b\"text\": \"X\"\x7d]\x7d, \"id\": 1\x7d"

def jsonOutcomeGood : HttpOutcome :=
  .response 200 "application/json" none goodTextBody

/-- An SSE body with one well-formed data line. -/
def goodSseBody : String :=
  "event: message\ndata: \x7b\"result\": \x7b\"content\": [\x7b\"text\": \"Y\"\x7d]\x7d\x7d\n"

def sseOutcomeGood : HttpOutcome :=
  .response 200 "text/event-stream" none goodSseBody

/-- A JSON error envelope with a message. -/
def errBody : String := "\x7b\"error\": \x7b\"message\": \"boom\"\x7d, \"id\": 1\x7d"

def jsonOutcomeErr : HttpOutcome := .response 200 "application/json" none errBody

/-- A successful initialize response carrying a session id header. -/
def initOkOutcome : HttpOutcome :=
  .response 200 "application/json" (some "sess-ok") "\x7b\"result\": \x7b\x7d\x7d"

/-- The accepted notification response. -/
def notifOkOutcome : HttpOutcome := .response 202 "application/json" none ""

/-- An initialize response that carries a session id header but reports a
JSON-RPC error in its body, so the handshake fails after storing the id. -/
def initErrOutcome : HttpOutcome :=
  .response 200 "application/json" (some "sess-err") "\x7b\"error\": \x7b\"message\": \"nope\"\x7d\x7d"

/-- An outcome for POSTs that the scenario never performs or never reads. -/
def dummyOutcome : HttpOutcome := .transportError "unused"

def freshClient : ClientState := mcpClientInit "http://mcp.example"

def readyClient : ClientState := { freshClient with initialized := true }

/-- A model stub that requests the same tool call on every reply. -/
def stubToolCall : ToolCall :=
  { id := "call-1", name := "get_aws_feed_news", arguments := "\x7b\x7d" }

def stubAlwaysToolLlm : List Message → Except String ModelReply := fun _ =>
  .ok { content := none, tool_calls := [stubToolCall] }

def stubTe : String → Json → String := fun _ _ => "tool result"

/-- A reply requesting two tool calls in one turn. -/
def twoCallReply : ModelReply :=
  { content := none
    tool_calls :=
      [ { id := "a", name := "t1", arguments := "\x7b\x7d" },
        { id := "b", name := "t2", arguments := "\x7b\x7d" } ] }

/-- A reply requesting a single tool call. -/
def oneCallReply : ModelReply :=
  { content := none
    tool_calls := [ { id := "a", name := "t1", arguments := "\x7b\x7d" } ] }

theorem captureSession_request_id (st : ClientState) (hdr : Option String) :
    (captureSession st hdr).request_id = st.request_id := by
  cases hdr with
  | none => rfl
  | some s =>
    simp only [captureSession]
    split <;> rfl

theorem captureSession_initialized (st : ClientState) (hdr : Option String) :
    (captureSession st hdr).initialized = st.initialized := by
  cases hdr with
  | none => rfl
  | some s =>
    simp only [captureSession]
    split <;> rfl

/-- A handshake already recorded as done short-circuits: success, unchanged
state, no POSTs. -/
theorem initSession_of_initialized (st : ClientState) (o1 o2 : HttpOutcome)
    (h : st.initialized = true) : initSession st o1 o2 = (true, st, []) := by
  unfold initSession
  simp [h]

/-- Unfolding equation: a transport error on the initialize POST. -/
theorem initSession_eq_transport (st : ClientState) (m : String) (o2 : HttpOutcome)
    (hst : st.initialized = false) :
    initSession st (.transportError m) o2 = (false, st, [initSentReq]) := by
  unfold initSession
  simp [hst]

/-- Unfolding equation: a non-2xx initialize response is failed by
raise_for_status. -/
theorem initSession_eq_status (st : ClientState) (status : Nat) (ct : String)
    (hdr : Option String) (body : String) (o2 : HttpOutcome)
    (hst : st.initialized = false) (hstat : ¬ (200 ≤ status ∧ status < 300)) :
    initSession st (.response status ct hdr body) o2 = (false, st, [initSentReq]) := by
  unfold initSession
  simp [hst, hstat]

/-- Unfolding equation: a 2xx initialize response goes through session
capture and the body phase. -/
theorem initSession_eq_body (st : ClientState) (status : Nat) (ct : String)
    (hdr : Option String) (body : String) (o2 : HttpOutcome)
    (hst : st.initialized = false) (hstat : 200 ≤ status ∧ status < 300) :
    initSession st (.response status ct hdr body) o2
      = initSessionBody (captureSession st hdr) ct body o2 := by
  unfold initSession
  simp [hst, hstat]

theorem initSessionBody_true_flag (st1 : ClientState) (ct body : String) (o2 : HttpOutcome)
    (h : (initSessionBody st1 ct body o2).1 = true) :
    (initSessionBody st1 ct body o2).2.1.initialized = true := by
  unfold initSessionBody at h ⊢
  rcases hc : initContentCheck ct body with m | b <;> rw [hc] at h
  · simp at h
  · cases b with
    | false => simp at h
    | true =>
      cases o2 with
      | transportError m2 => simp at h
      | response a b c d => rfl

theorem initSessionBody_request_id (st1 : ClientState) (ct body : String) (o2 : HttpOutcome) :
    (initSessionBody st1 ct body o2).2.1.request_id = st1.request_id := by
  unfold initSessionBody
  rcases hc : initContentCheck ct body with m | b
  · rfl
  · cases b with
    | false => rfl
    | true => cases o2 with
      | transportError m => rfl
      | response a b c d => rfl

theorem initSessionBody_session_id (st1 : ClientState) (ct body : String) (o2 : HttpOutcome) :
    (initSessionBody st1 ct body o2).2.1.session_id = st1.session_id := by
  unfold initSessionBody
  rcases hc : initContentCheck ct body with m | b
  · rfl
  · cases b with
    | false => rfl
    | true => cases o2 with
      | transportError m => rfl
      | response a b c d => rfl

theorem initSessionBody_false_flag (st1 : ClientState) (ct body : String) (o2 : HttpOutcome)
    (hst : st1.initialized = false) (h : (initSessionBody st1 ct body o2).1 = false) :
    (initSessionBody st1 ct body o2).2.1.initialized = false := by
  unfold initSessionBody at h ⊢
  rcases hc : initContentCheck ct body with m | b <;> rw [hc] at h
  · exact hst
  · cases b with
    | false => exact hst
    | true =>
      cases o2 with
      | transportError m2 => exact hst
      | response a b c d => simp at h

/-- A successful handshake leaves the initialized flag set. -/
theorem initSession_true_flag (st : ClientState) (o1 o2 : HttpOutcome)
    (h : (initSession st o1 o2).1 = true) :
    (initSession st o1 o2).2.1.initialized = true := by
  by_cases hst : st.initialized = true
  · rw [initSession_of_initialized st o1 o2 hst]; exact hst
  · replace hst : st.initialized = false := by
      cases hb : st.initialized
      · rfl
      · exact absurd hb hst
    cases o1 with
    | transportError m => rw [initSession_eq_transport st m o2 hst] at h; simp at h
    | response status ct hdr body =>
      by_cases hstat : 200 ≤ status ∧ status < 300
      · rw [initSession_eq_body st status ct hdr body o2 hst hstat] at h ⊢
        exact initSessionBody_true_flag _ _ _ _ h
      · rw [initSession_eq_status st status ct hdr body o2 hst hstat] at h; simp at h

/-- The handshake never touches the request-id counter. -/
theorem initSession_request_id (st : ClientState) (o1 o2 : HttpOutcome) :
    (initSession st o1 o2).2.1.request_id = st.request_id := by
  by_cases hst : st.initialized = true
  · rw [initSession_of_initialized st o1 o2 hst]
  · replace hst : st.initialized = false := by
      cases hb : st.initialized
      · rfl
      · exact absurd hb hst
    cases o1 with
    | transportError m => rw [initSession_eq_transport st m o2 hst]
    | response status ct hdr body =>
      by_cases hstat : 200 ≤ status ∧ status < 300
      · rw [initSession_eq_body st status ct hdr body o2 hst hstat]
        rw [initSessionBody_request_id]
        exact captureSession_request_id st hdr
      · rw [initSession_eq_status st status ct hdr body o2 hst hstat]

/-- A failed handshake leaves the initialized flag clear. -/
theorem initSession_false_flag (st : ClientState) (o1 o2 : HttpOutcome)
    (hst : st.initialized = false) (h : (initSession st o1 o2).1 = false) :
    (initSession st o1 o2).2.1.initialized = false := by
  cases o1 with
  | transportError m => rw [initSession_eq_transport st m o2 hst]; exact hst
  | response status ct hdr body =>
    by_cases hstat : 200 ≤ status ∧ status < 300
    · rw [initSession_eq_body st status ct hdr body o2 hst hstat] at h ⊢
      refine initSessionBody_false_flag _ _ _ _ ?_ h
      rw [captureSession_initialized]; exact hst
    · rw [initSession_eq_status st status ct hdr body o2 hst hstat]; exact hst

/-- handle on an event whose body decodes and parses reduces to request
dispatch. -/
theorem handle_eq_handleRequest (tools : Registry) (ev : LambdaEvent) (body : String)
    (request : Json) (hdec : McpLambdaServer.decodeEventBody ev = .ok body)
    (hload : Json.loads body = some request) :
    McpLambdaServer.handle tools ev = McpLambdaServer.handleRequest tools request := by
  unfold McpLambdaServer.handle
  rw [hdec]
  show (match Json.loads body with
    | none => Except.error jsonDecodeMsg
    | some request => McpLambdaServer.handleRequest tools request) = _
  rw [hload]

/-- Claim C7 (confirmed): initialize is idempotent.  With the initialized
flag already set it returns success at once with the state unchanged and
no POSTs attempted; and after any successful call, a further call is such
a no-op, so two consecutive calls perform the handshake POSTs exactly
once. -/
theorem C7_theorem (st : ClientState) (o1 o2 o3 o4 : HttpOutcome) :
    (st.initialized = true → initSession st o1 o2 = (true, st, []))
    ∧ ((initSession st o1 o2).1 = true →
        initSession (initSession st o1 o2).2.1 o3 o4
          = (true, (initSession st o1 o2).2.1, [])) := by
  refine ⟨initSession_of_initialized st o1 o2, fun h => ?_⟩
  exact initSession_of_initialized _ o3 o4 (initSession_true_flag st o1 o2 h)

/-- Witness for C7 at concrete inputs: an already-initialized session, and
a fresh session whose handshake succeeds followed by a second call. -/
theorem C7_witness :
    (initSession readyClient dummyOutcome dummyOutcome = (true, readyClient, []))
    ∧ (initSession freshClient initOkOutcome notifOkOutcome).1 = true
    ∧ initSession (initSession freshClient initOkOutcome notifOkOutcome).2.1 dummyOutcome dummyOutcome
        = (true, (initSession freshClient initOkOutcome notifOkOutcome).2.1, []) := by
  refine ⟨(C7_theorem readyClient dummyOutcome dummyOutcome dummyOutcome dummyOutcome).1 rfl, rfl, ?_⟩
  exact (C7_theorem freshClient initOkOutcome notifOkOutcome dummyOutcome dummyOutcome).2 rfl

/-- Unfolding equation for call_tool on an uninitialized session. -/
theorem call_tool_uninit (st : ClientState) (name : String) (args : Json) (i1 i2 o : HttpOutcome)
    (hst : st.initialized = false) :
    call_tool st name args i1 i2 o
      = (callToolResult o,
         { (initSession st i1 i2).2.1 with request_id := st.request_id + 1 },
         (initSession st i1 i2).2.2
           ++ [{ payload := toolCallPayload name args (st.request_id + 1),
                 sessionHeader := sessionHeaderOf (initSession st i1 i2).2.1.session_id }]) := by
  have hst' : ¬ st.initialized = true := by rw [hst]; exact Bool.false_ne_true
  simp only [call_tool, if_neg hst']
  rw [initSession_request_id]

/-- Unfolding equation for call_tool on an initialized session. -/
theorem call_tool_init (st : ClientState) (name : String) (args : Json) (i1 i2 o : HttpOutcome)
    (hst : st.initialized = true) :
    call_tool st name args i1 i2 o
      = (callToolResult o,
         { st with request_id := st.request_id + 1 },
         [{ payload := toolCallPayload name args (st.request_id + 1),
            sessionHeader := sessionHeaderOf st.session_id }]) := by
  simp only [call_tool, if_pos hst, List.nil_append]

/-- Claim C10 (corrected): on an uninitialized session call_tool attempts
the handshake first and discards its boolean result: whatever that result,
it pre-increments the request id, posts the tools/call request, and
returns the string determined by the tools/call response alone.  The claim
wording "without a session header" fails: the header is attached exactly
when the handshake, even a failed one, stored a truthy session id (see the
counterexample).  When the handshake failed the initialized flag stays
false, so the next call_tool attempts the handshake again. -/
theorem C10_theorem (st : ClientState) (name : String) (args : Json) (i1 i2 o : HttpOutcome)
    (hst : st.initialized = false) :
    (call_tool st name args i1 i2 o).2.2
      = (initSession st i1 i2).2.2
        ++ [{ payload := toolCallPayload name args (st.request_id + 1),
              sessionHeader := sessionHeaderOf (initSession st i1 i2).2.1.session_id }]
    ∧ (call_tool st name args i1 i2 o).2.1.request_id = st.request_id + 1
    ∧ (call_tool st name args i1 i2 o).1 = callToolResult o
    ∧ ((initSession st i1 i2).1 = false →
        (call_tool st name args i1 i2 o).2.1.initialized = false) := by
  rw [call_tool_uninit st name args i1 i2 o hst]
  refine ⟨rfl, rfl, rfl, fun hfail => ?_⟩
  show (initSession st i1 i2).2.1.initialized = false
  exact initSession_false_flag st i1 i2 hst hfail

/-- Witness for C10 at a concrete failed handshake followed by a
successful tools/call response. -/
theorem C10_witness :
    (call_tool freshClient "t" (Json.obj []) initErrOutcome dummyOutcome jsonOutcomeGood).2.2
      = (initSession freshClient initErrOutcome dummyOutcome).2.2
        ++ [{ payload := toolCallPayload "t" (Json.obj []) 1,
              sessionHeader :=
                sessionHeaderOf (initSession freshClient initErrOutcome dummyOutcome).2.1.session_id }]
    ∧ (call_tool freshClient "t" (Json.obj []) initErrOutcome dummyOutcome jsonOutcomeGood).2.1.initialized
        = false := by
  have h := C10_theorem freshClient "t" (Json.obj []) initErrOutcome dummyOutcome jsonOutcomeGood rfl
  exact ⟨h.1, h.2.2.2 rfl⟩

/-- Counterexample for C10 as frozen: after a handshake that failed but
stored the session id announced by the server, the tools/call POST does
carry the Mcp-Session-Id header, while the claim asserts it is posted
without a session header.  The first POST shown is the handshake attempt,
the second is the tools/call request with header sess-err. -/
theorem C10_counterexample :
    (initSession freshClient initErrOutcome dummyOutcome).1 = false
    ∧ (call_tool freshClient "get_aws_feed_news" (Json.obj [])
        initErrOutcome dummyOutcome jsonOutcomeGood).2.2.map (fun r => r.sessionHeader)
      = [none, some "sess-err"] := ⟨rfl, rfl⟩

theorem call_tool_fst (st : ClientState) (n : String) (a : Json) (i1 i2 o : HttpOutcome) :
    (call_tool st n a i1 i2 o).1 = callToolResult o := rfl

theorem callToolResult_httpError (o : HttpOutcome) (m : String)
    (h : handleToolResponse o = .error (.httpError m)) :
    callToolResult o = "Error calling tool: " ++ m := by
  unfold callToolResult
  rw [h]

theorem callToolResult_other (o : HttpOutcome) (m : String)
    (h : handleToolResponse o = .error (.other m)) :
    callToolResult o = "Error: " ++ m := by
  unfold callToolResult
  rw [h]

theorem toolLookup_hashable (tools : Registry) (v : Json)
    (hv : McpLambdaServer.jsonHashable v = true) :
    ∃ r, McpLambdaServer.toolLookup tools v = .ok r := by
  cases v <;> simp_all [McpLambdaServer.jsonHashable, McpLambdaServer.toolLookup]

/-- Dispatch of a parsed object request whose method is neither tools/list
nor tools/call ends in the unknown-method error envelope. -/
theorem handleRequest_unknown_method (tools : Registry) (fs : List (String × Json))
    (hl : Json.isStrVal ((lookupLast fs "method").getD Json.null) "tools/list" = false)
    (hc : Json.isStrVal ((lookupLast fs "method").getD Json.null) "tools/call" = false) :
    McpLambdaServer.handleRequest tools (Json.obj fs)
      = .ok (McpLambdaServer.errorEnvelope ((lookupLast fs "id").getD Json.null)
          ("Unknown method: " ++ pyStr ((lookupLast fs "method").getD Json.null))) := by
  unfold McpLambdaServer.handleRequest
  show (Except.ok ((lookupLast fs "method").getD Json.null)).bind _ = _
  rw [Except.bind]
  show (Except.ok ((lookupLast fs "id").getD Json.null)).bind _ = _
  rw [Except.bind]
  rw [if_neg, if_neg]
  · rw [hc]; exact Bool.false_ne_true
  · rw [hl]; exact Bool.false_ne_true

/-- A tools/call method value is not the tools/list method value. -/
theorem isStrVal_call_not_list (v : Json)
    (hm : Json.isStrVal v "tools/call" = true) :
    Json.isStrVal v "tools/list" = false := by
  cases v <;> simp_all [Json.isStrVal]

/-- Dispatch of a parsed object request with method tools/list. -/
theorem handleRequest_tools_list (tools : Registry) (fs : List (String × Json))
    (hl : Json.isStrVal ((lookupLast fs "method").getD Json.null) "tools/list" = true) :
    McpLambdaServer.handleRequest tools (Json.obj fs)
      = .ok (McpLambdaServer.responseEnvelope ((lookupLast fs "id").getD Json.null)
          (Json.obj [("tools",
            Json.arr (tools.map (fun kv => Json.obj [("name", Json.str kv.1)])))])) := by
  unfold McpLambdaServer.handleRequest
  show (Except.ok ((lookupLast fs "method").getD Json.null)).bind _ = _
  rw [Except.bind]
  show (Except.ok ((lookupLast fs "id").getD Json.null)).bind _ = _
  rw [Except.bind]
  rw [if_pos hl]

/-- Dispatch of a parsed object request with method tools/call and an
object params value reduces to lookup plus invocation. -/
theorem handleRequest_tools_call (tools : Registry) (fs ps : List (String × Json))
    (hm : Json.isStrVal ((lookupLast fs "method").getD Json.null) "tools/call" = true)
    (hp : (lookupLast fs "params").getD (Json.obj []) = Json.obj ps) :
    McpLambdaServer.handleRequest tools (Json.obj fs)
      = (McpLambdaServer.toolLookup tools ((lookupLast ps "name").getD Json.null)).bind
          (fun fn? =>
            match fn? with
            | none => .ok (McpLambdaServer.errorEnvelope ((lookupLast fs "id").getD Json.null)
                ("Unknown tool: " ++ pyStr ((lookupLast ps "name").getD Json.null)))
            | some fn =>
              match McpLambdaServer.callKwargs fn ((lookupLast ps "arguments").getD (Json.obj [])) with
              | .ok result =>
                .ok (McpLambdaServer.responseEnvelope ((lookupLast fs "id").getD Json.null) result)
              | .error e =>
                .ok (McpLambdaServer.errorEnvelope ((lookupLast fs "id").getD Json.null) e)) := by
  unfold McpLambdaServer.handleRequest
  show (Except.ok ((lookupLast fs "method").getD Json.null)).bind _ = _
  rw [Except.bind]
  show (Except.ok ((lookupLast fs "id").getD Json.null)).bind _ = _
  rw [Except.bind]
  rw [if_neg, if_pos hm]
  · show (Except.ok ((lookupLast fs "params").getD (Json.obj []))).bind _ = _
    rw [Except.bind]
    rw [hp]
    show (Except.ok ((lookupLast ps "name").getD Json.null)).bind _ = _
    rw [Except.bind]
    show (Except.ok ((lookupLast ps "arguments").getD (Json.obj []))).bind _ = _
    rw [Except.bind]
  · rw [isStrVal_call_not_list _ hm]; exact Bool.false_ne_true

/-- Claim C4 (corrected): the client methods convert every exception in
their bodies to a returned value: call_tool returns a string prefixed
"Error calling tool: " for httpx.HTTPError failures and "Error: " for all
other exceptions, for every session state and input.  The Lambda
responder, however, is not exception-free: handle returns a status-200
envelope for every event whose decoded body parses as a JSON object
(with, for tools/call, an object params value and a hashable name), but a
body that is not valid JSON makes handle itself raise a
json.JSONDecodeError (see the counterexample), since json.loads is not
inside any try block. -/
theorem C4_theorem :
    (∀ (st : ClientState) (n : String) (a : Json) (i1 i2 o : HttpOutcome) (m : String),
      handleToolResponse o = .error (.httpError m) →
      (call_tool st n a i1 i2 o).1 = "Error calling tool: " ++ m)
    ∧ (∀ (st : ClientState) (n : String) (a : Json) (i1 i2 o : HttpOutcome) (m : String),
      handleToolResponse o = .error (.other m) →
      (call_tool st n a i1 i2 o).1 = "Error: " ++ m)
    ∧ (∀ (tools : Registry) (ev : LambdaEvent) (body : String) (fs : List (String × Json)),
      McpLambdaServer.decodeEventBody ev = .ok body →
      Json.loads body = some (Json.obj fs) →
      Json.isStrVal ((lookupLast fs "method").getD Json.null) "tools/call" = false →
      ∃ resp, McpLambdaServer.handle tools ev = .ok resp ∧ resp.statusCode = 200)
    ∧ (∀ (tools : Registry) (ev : LambdaEvent) (body : String) (fs ps : List (String × Json)),
      McpLambdaServer.decodeEventBody ev = .ok body →
      Json.loads body = some (Json.obj fs) →
      Json.isStrVal ((lookupLast fs "method").getD Json.null) "tools/call" = true →
      (lookupLast fs "params").getD (Json.obj []) = Json.obj ps →
      McpLambdaServer.jsonHashable ((lookupLast ps "name").getD Json.null) = true →
      ∃ resp, McpLambdaServer.handle tools ev = .ok resp ∧ resp.statusCode = 200) := by
  refine ⟨?_, ?_, ?_, ?_⟩
  · intro st n a i1 i2 o m h
    rw [call_tool_fst]
    exact callToolResult_httpError o m h
  · intro st n a i1 i2 o m h
    rw [call_tool_fst]
    exact callToolResult_other o m h
  · intro tools ev body fs hdec hload hc
    rw [handle_eq_handleRequest tools ev body (Json.obj fs) hdec hload]
    by_cases hl : Json.isStrVal ((lookupLast fs "method").getD Json.null) "tools/list" = true
    · exact ⟨_, handleRequest_tools_list tools fs hl, rfl⟩
    · replace hl : Json.isStrVal ((lookupLast fs "method").getD Json.null) "tools/list" = false := by
        cases hb : Json.isStrVal ((lookupLast fs "method").getD Json.null) "tools/list"
        · rfl
        · exact absurd hb hl
      exact ⟨_, handleRequest_unknown_method tools fs hl hc, rfl⟩
  · intro tools ev body fs ps hdec hload hm hp hhash
    rw [handle_eq_handleRequest tools ev body (Json.obj fs) hdec hload]
    rw [handleRequest_tools_call tools fs ps hm hp]
    obtain ⟨r, hr⟩ := toolLookup_hashable tools _ hhash
    rw [hr, Except.bind]
    have hmatch : ∀ (x : Except String Json) (rid : Json),
        ∃ resp, (match x with
          | Except.ok result => Except.ok (McpLambdaServer.responseEnvelope rid result)
          | Except.error e => Except.ok (McpLambdaServer.errorEnvelope rid e))
            = (Except.ok resp : Except String LambdaResponse)
          ∧ resp.statusCode = 200 := by
      intro x rid
      cases x
      · exact ⟨_, rfl, rfl⟩
      · exact ⟨_, rfl, rfl⟩
    cases r with
    | none => exact ⟨_, rfl, rfl⟩
    | some fn =>
      exact hmatch (McpLambdaServer.callKwargs fn ((lookupLast ps "arguments").getD (Json.obj [])))
        ((lookupLast fs "id").getD Json.null)

/-- Counterexample for C4 as frozen: an event whose body is not valid
JSON makes handle raise (modelled as Except.error) instead of returning an
error envelope. -/
theorem C4_counterexample :
    McpLambdaServer.handle [] malformedEvent = Except.error jsonDecodeMsg := rfl

/-- Witness for C4 at concrete inputs: a transport error, a JSON decode
failure of the tool response, an unknown-method event and a tools/call
event for a raising tool. -/
theorem C4_witness :
    (call_tool readyClient "t" (Json.obj []) dummyOutcome dummyOutcome
        (HttpOutcome.transportError "connection refused")).1
      = "Error calling tool: connection refused"
    ∧ (call_tool readyClient "t" (Json.obj []) dummyOutcome dummyOutcome
        (HttpOutcome.response 200 "application/json" none "oops")).1
      = "Error: " ++ jsonDecodeMsg
    ∧ (∃ resp, McpLambdaServer.handle [] unknownMethodEvent = .ok resp ∧ resp.statusCode = 200)
    ∧ (∃ resp, McpLambdaServer.handle [("bad", raisingTool)] raisingToolEvent = .ok resp
        ∧ resp.statusCode = 200) := by
  refine ⟨?_, ?_, ?_, ?_⟩
  · exact C4_theorem.1 readyClient "t" (Json.obj []) dummyOutcome dummyOutcome _ "connection refused" rfl
  · exact C4_theorem.2.1 readyClient "t" (Json.obj []) dummyOutcome dummyOutcome _ jsonDecodeMsg rfl
  · exact C4_theorem.2.2.1 [] unknownMethodEvent unknownMethodEvent.body _ rfl rfl rfl
  · exact C4_theorem.2.2.2 [("bad", raisingTool)] raisingToolEvent raisingToolEvent.body _ _ rfl rfl rfl rfl rfl

/-- Claim C1 (corrected): for any registered echo callable that returns
its argument unchanged, handle on the tools/call event for echo with
arguments x = hi produces the status-200 envelope whose body parses as a
JSON-RPC success envelope whose result is exactly the echoed string hi:
the responder wraps the raw return value of the callable, it does not
build a content array, so the claimed result.content[0].text does not
exist (see the counterexample). -/
theorem C1_theorem (f : McpToolFn)
    (h : f [("x", Json.str "hi")] = Except.ok (Json.str "hi")) :
    McpLambdaServer.handle [("echo", f)] echoEvent
      = Except.ok (McpLambdaServer.responseEnvelope (Json.num 1) (Json.str "hi"))
    ∧ (McpLambdaServer.responseEnvelope (Json.num 1) (Json.str "hi")).statusCode = 200
    ∧ Json.loads (McpLambdaServer.responseEnvelope (Json.num 1) (Json.str "hi")).body
      = some (Json.obj
          [("jsonrpc", Json.str "2.0"), ("result", Json.str "hi"), ("id", Json.num 1)]) := by
  refine ⟨?_, rfl, rfl⟩
  have step : McpLambdaServer.handle [("echo", f)] echoEvent
      = (match f [("x", Json.str "hi")] with
         | Except.ok result => Except.ok (McpLambdaServer.responseEnvelope (Json.num 1) result)
         | Except.error e => Except.ok (McpLambdaServer.errorEnvelope (Json.num 1) e)) := rfl
  rw [step, h]

/-- Witness for C1 at the concrete echo tool. -/
theorem C1_witness :
    McpLambdaServer.handle [("echo", echoTool)] echoEvent
      = Except.ok (McpLambdaServer.responseEnvelope (Json.num 1) (Json.str "hi")) :=
  (C1_theorem echoTool rfl).1

/-- Counterexample for C1 as frozen: the result field of the parsed body
is the bare string hi, which has no content key, so content[0].text is
not hi (there is no such path). -/
theorem C1_counterexample :
    (McpLambdaServer.handle [("echo", echoTool)] echoEvent).map
        (fun r => (Json.loads r.body).map (fun j => Json.getKey? j "result"))
      = Except.ok (some (some (Json.str "hi")))
    ∧ Json.getKey? (Json.str "hi") "content" = none := ⟨rfl, rfl⟩

theorem runToolCalls_length (te : String → Json → String) (tcs : List ToolCall)
    (msgs out : List Message) (h : runToolCalls te tcs msgs = Except.ok out) :
    out.length = msgs.length + tcs.length := by
  induction tcs generalizing msgs with
  | nil =>
    unfold runToolCalls at h
    cases h
    rfl
  | cons tc rest ih =>
    unfold runToolCalls at h
    cases hl : Json.loads tc.arguments with
    | none => rw [hl] at h; cases h
    | some args =>
      rw [hl] at h
      have := ih _ h
      rw [this]
      simp
      omega

theorem runToolCalls_ok (te : String → Json → String) (tcs : List ToolCall)
    (msgs : List Message)
    (h : ∀ tc ∈ tcs, (Json.loads tc.arguments).isSome = true) :
    ∃ out, runToolCalls te tcs msgs = Except.ok out := by
  induction tcs generalizing msgs with
  | nil => exact ⟨msgs, rfl⟩
  | cons tc rest ih =>
    have h1 := h tc (List.mem_cons_self tc rest)
    cases hl : Json.loads tc.arguments with
    | none => rw [hl] at h1; cases h1
    | some args =>
      obtain ⟨out, hout⟩ := ih (msgs ++ [Message.tool tc.id (te tc.name args)])
        (fun tc2 htc2 => h tc2 (List.mem_cons_of_mem tc htc2))
      refine ⟨out, ?_⟩
      unfold runToolCalls
      rw [hl]
      exact hout

theorem chatLoop_count_le (llm : List Message → Except String ModelReply)
    (te : String → Json → String) (fuel : Nat) (msgs : List Message) :
    (chatLoop llm te fuel msgs).2 ≤ fuel := by
  induction fuel generalizing msgs with
  | zero => exact Nat.le_refl 0
  | succ n ih =>
    unfold chatLoop
    split
    · simp
    · split
      · simp
      · split
        · simp
        · exact Nat.succ_le_succ (ih _)

theorem chatLoop_always_tools (llm : List Message → Except String ModelReply)
    (te : String → Json → String)
    (h : ∀ msgs, ∃ r, llm msgs = Except.ok r ∧ r.tool_calls ≠ []
          ∧ ∀ tc ∈ r.tool_calls, (Json.loads tc.arguments).isSome = true) :
    ∀ (fuel : Nat) (msgs : List Message),
      chatLoop llm te fuel msgs = (some apologyMessage, fuel) := by
  intro fuel
  induction fuel with
  | zero => intro msgs; rfl
  | succ n ih =>
    intro msgs
    obtain ⟨r, hr, hne, hargs⟩ := h msgs
    obtain ⟨out, hout⟩ := runToolCalls_ok te r.tool_calls (msgs ++ [assistantRecord r]) hargs
    have hd : dispatchIterationMessages te msgs r = Except.ok out := hout
    unfold chatLoop
    split
    · rename_i e heq
      rw [hr] at heq
      cases heq
    · rename_i reply heq
      rw [hr] at heq
      injection heq with h2
      subst h2
      split
      · rename_i hnil
        exact absurd hnil hne
      · rename_i a b hcons
        split
        · rename_i e heq2
          rw [hd] at heq2
          cases heq2
        · rename_i msgs2 heq2
          rw [hd] at heq2
          injection heq2 with h3
          subst h3
          rw [ih]

/-- Claim C3 (confirmed): the tool-dispatch loop terminates for every
model collaborator: it performs at most fuel iterations (5 at the top
level), it ends as soon as a model reply contains no tool calls, and for a
model stub that requests parseable tool calls on every reply chat_with_llm
performs exactly 5 iterations and returns the fixed apology message. -/
theorem C3_theorem (llm : List Message → Except String ModelReply)
    (te : String → Json → String) :
    (∀ (fuel : Nat) (msgs : List Message), (chatLoop llm te fuel msgs).2 ≤ fuel)
    ∧ (∀ (msgs : List Message) (r : ModelReply) (fuel : Nat),
        llm msgs = Except.ok r → r.tool_calls = [] →
        chatLoop llm te (fuel + 1) msgs = (r.content, 1))
    ∧ ((∀ msgs, ∃ r, llm msgs = Except.ok r ∧ r.tool_calls ≠ []
          ∧ ∀ tc ∈ r.tool_calls, (Json.loads tc.arguments).isSome = true) →
        ∀ (user_message : String) (history : List Message),
          chat_with_llm llm te user_message history = some apologyMessage
          ∧ (chatLoop llm te 5 (initialMessages user_message history)).2 = 5) := by
  refine ⟨chatLoop_count_le llm te, ?_, ?_⟩
  · intro msgs r fuel hr hempty
    unfold chatLoop
    split
    · rename_i e heq
      rw [hr] at heq
      cases heq
    · rename_i reply heq
      rw [hr] at heq
      injection heq with h2
      subst h2
      split
      · rfl
      · rename_i a b hcons
        rw [hempty] at hcons
        cases hcons
  · intro h user_message history
    have hall := chatLoop_always_tools llm te h
    constructor
    · unfold chat_with_llm
      rw [hall]
    · rw [hall]

/-- Witness for C3: the concrete always-tool-calling stub. -/
theorem C3_witness :
    chat_with_llm stubAlwaysToolLlm stubTe "hello" [] = some apologyMessage
    ∧ (chatLoop stubAlwaysToolLlm stubTe 5 (initialMessages "hello" [])).2 = 5 := by
  refine (C3_theorem stubAlwaysToolLlm stubTe).2.2 ?_ "hello" []
  intro msgs
  refine ⟨{ content := none, tool_calls := [stubToolCall] }, rfl, by simp, ?_⟩
  intro tc htc
  have : tc = stubToolCall := by
    cases htc with
    | head => rfl
    | tail _ hmem => cases hmem
  rw [this]
  rfl

/-- Claim C8 (corrected): in an iteration whose model reply requests tool
calls, the message sequence grows by exactly one assistant record plus one
tool-result entry per requested call, that is 1 + k entries for k
requested calls; this equals the claimed two entries exactly when the
reply requests a single tool call, and the counterexample shows a
two-call reply growing the sequence by three. -/
theorem C8_theorem (te : String → Json → String) (msgs : List Message)
    (reply : ModelReply) (out : List Message)
    (_hne : reply.tool_calls ≠ [])
    (h : dispatchIterationMessages te msgs reply = Except.ok out) :
    out.length = msgs.length + 1 + reply.tool_calls.length
    ∧ (reply.tool_calls.length = 1 → out.length = msgs.length + 2) := by
  have hlen := runToolCalls_length te reply.tool_calls (msgs ++ [assistantRecord reply]) out h
  constructor
  · rw [hlen]
    simp
  · intro h1
    rw [hlen, h1]
    simp

/-- Witness for C8: a single-call reply grows a one-message sequence to
three messages, which is 1 + 1 + 1 and also 1 + 2. -/
theorem C8_witness :
    [Message.user "q", assistantRecord oneCallReply,
        Message.tool "a" (stubTe "t1" (Json.obj []))].length
      = [Message.user "q"].length + 1 + oneCallReply.tool_calls.length
    ∧ [Message.user "q", assistantRecord oneCallReply,
        Message.tool "a" (stubTe "t1" (Json.obj []))].length
      = [Message.user "q"].length + 2 := by
  have h := C8_theorem stubTe [Message.user "q"] oneCallReply
    [Message.user "q", assistantRecord oneCallReply, Message.tool "a" (stubTe "t1" (Json.obj []))]
    (by simp [oneCallReply]) rfl
  exact ⟨h.1, h.2 rfl⟩

/-- Counterexample for C8 as frozen: a reply with two tool calls grows the
(empty) message sequence by three entries, not by exactly two. -/
theorem C8_counterexample :
    (dispatchIterationMessages (fun _ _ => "r") [] twoCallReply).map List.length
      = Except.ok 3
    ∧ (3 : Nat) ≠ ([] : List Message).length + 2 := ⟨rfl, by decide⟩

theorem traceToolCallIds_append (xs ys : List SentRequest) :
    traceToolCallIds (xs ++ ys) = traceToolCallIds xs ++ traceToolCallIds ys := by
  unfold traceToolCallIds
  rw [List.filter_append, List.map_append]

/-- The tools/call request built by call_tool is recognised as such and
carries the id it was built with. -/
theorem traceToolCallIds_single (n : String) (a : Json) (i : Nat) (h : Option String) :
    traceToolCallIds [{ payload := toolCallPayload n a i, sessionHeader := h }]
      = [Json.num (Int.ofNat i)] := rfl

theorem initSessionBody_trace_ids (st1 : ClientState) (ct body : String) (o2 : HttpOutcome) :
    traceToolCallIds (initSessionBody st1 ct body o2).2.2 = [] := by
  unfold initSessionBody
  rcases hc : initContentCheck ct body with m | b
  · rfl
  · cases b with
    | false => rfl
    | true =>
      cases o2 with
      | transportError m2 => rfl
      | response a b c d => rfl

/-- Neither handshake POST is a tools/call request. -/
theorem initSession_trace_ids (st : ClientState) (o1 o2 : HttpOutcome) :
    traceToolCallIds (initSession st o1 o2).2.2 = [] := by
  by_cases hst : st.initialized = true
  · rw [initSession_of_initialized st o1 o2 hst]; rfl
  · replace hst : st.initialized = false := by
      cases hb : st.initialized
      · rfl
      · exact absurd hb hst
    cases o1 with
    | transportError m => rw [initSession_eq_transport st m o2 hst]; rfl
    | response status ct hdr body =>
      by_cases hstat : 200 ≤ status ∧ status < 300
      · rw [initSession_eq_body st status ct hdr body o2 hst hstat]
        exact initSessionBody_trace_ids _ ct body o2
      · rw [initSession_eq_status st status ct hdr body o2 hst hstat]; rfl

/-- Every call_tool invocation moves the counter up by one. -/
theorem call_tool_request_id (st : ClientState) (n : String) (a : Json) (i1 i2 o : HttpOutcome) :
    (call_tool st n a i1 i2 o).2.1.request_id = st.request_id + 1 := by
  by_cases hst : st.initialized = true
  · rw [call_tool_init st n a i1 i2 o hst]
  · replace hst : st.initialized = false := by
      cases hb : st.initialized
      · rfl
      · exact absurd hb hst
    rw [call_tool_uninit st n a i1 i2 o hst]

/-- The tools/call ids posted by one call_tool invocation: exactly the
pre-incremented counter value. -/
theorem call_tool_trace_ids (st : ClientState) (n : String) (a : Json) (i1 i2 o : HttpOutcome) :
    traceToolCallIds (call_tool st n a i1 i2 o).2.2
      = [Json.num (Int.ofNat (st.request_id + 1))] := by
  by_cases hst : st.initialized = true
  · rw [call_tool_init st n a i1 i2 o hst]
    exact traceToolCallIds_single n a (st.request_id + 1) (sessionHeaderOf st.session_id)
  · replace hst : st.initialized = false := by
      cases hb : st.initialized
      · rfl
      · exact absurd hb hst
    rw [call_tool_uninit st n a i1 i2 o hst]
    rw [traceToolCallIds_append, initSession_trace_ids]
    rw [List.nil_append]
    exact traceToolCallIds_single n a (st.request_id + 1) _

/-- The tools/call ids of a whole session trace are consecutive, starting
one above the starting counter. -/
theorem callToolTrace_ids (st : ClientState) (inputs : List CallInput) :
    traceToolCallIds (callToolTrace st inputs)
      = (List.range' (st.request_id + 1) inputs.length).map
          (fun i => Json.num (Int.ofNat i)) := by
  induction inputs generalizing st with
  | nil => rfl
  | cons c rest ih =>
    show traceToolCallIds ((call_tool st c.name c.args c.i1 c.i2 c.o).2.2
        ++ callToolTrace (call_tool st c.name c.args c.i1 c.i2 c.o).2.1 rest) = _
    rw [traceToolCallIds_append, call_tool_trace_ids, ih, call_tool_request_id]
    rw [List.length_cons]
    rw [show List.range' (st.request_id + 1) (rest.length + 1)
        = (st.request_id + 1) :: List.range' (st.request_id + 1 + 1) rest.length from rfl]
    rw [List.map_cons]
    rfl

/-- Claim C6 (confirmed): for any session started from a fresh client
state and any sequence of call_tool invocations, the ids attached to the
issued tools/call requests are exactly 1, 2, ..., n, hence strictly
increasing, never reused, and each strictly greater than the handshake id
0. -/
theorem C6_theorem (base : String) (inputs : List CallInput) :
    traceToolCallIds (callToolTrace (mcpClientInit base) inputs)
      = (List.range' 1 inputs.length).map (fun i => Json.num (Int.ofNat i))
    ∧ List.Chain' (· < ·) (List.range' 1 inputs.length)
    ∧ (List.range' 1 inputs.length).Nodup
    ∧ ∀ i ∈ List.range' 1 inputs.length, 0 < i := by
  refine ⟨callToolTrace_ids (mcpClientInit base) inputs, ?_, ?_, ?_⟩
  · exact (List.pairwise_lt_range' 1 inputs.length).chain'
  · exact List.nodup_range' 1 inputs.length
  · intro i hi
    have := List.mem_range'.mp hi
    omega

/-- Claim C9 (confirmed): every responder outcome is a status-200
envelope: an unregistered tools/call name yields the JSON-RPC error
"Unknown tool: <name>" carrying the request id, an unknown method yields
"Unknown method: <method>", and an exception raised by a registered
callable is reported as a JSON-RPC error with the exception message rather
than propagated. -/
theorem C9_theorem (tools : Registry) :
    (∀ (rid : Json) (msg : String),
        (McpLambdaServer.errorEnvelope rid msg).statusCode = 200)
    ∧ (∀ (ev : LambdaEvent) (body : String) (fs ps : List (String × Json)) (nm : String),
        McpLambdaServer.decodeEventBody ev = .ok body →
        Json.loads body = some (Json.obj fs) →
        Json.isStrVal ((lookupLast fs "method").getD Json.null) "tools/call" = true →
        (lookupLast fs "params").getD (Json.obj []) = Json.obj ps →
        (lookupLast ps "name").getD Json.null = Json.str nm →
        tools.find? (fun kv => kv.1 == nm) = none →
        McpLambdaServer.handle tools ev
          = .ok (McpLambdaServer.errorEnvelope ((lookupLast fs "id").getD Json.null)
              ("Unknown tool: " ++ nm)))
    ∧ (∀ (ev : LambdaEvent) (body : String) (fs : List (String × Json)),
        McpLambdaServer.decodeEventBody ev = .ok body →
        Json.loads body = some (Json.obj fs) →
        Json.isStrVal ((lookupLast fs "method").getD Json.null) "tools/list" = false →
        Json.isStrVal ((lookupLast fs "method").getD Json.null) "tools/call" = false →
        McpLambdaServer.handle tools ev
          = .ok (McpLambdaServer.errorEnvelope ((lookupLast fs "id").getD Json.null)
              ("Unknown method: " ++ pyStr ((lookupLast fs "method").getD Json.null))))
    ∧ (∀ (ev : LambdaEvent) (body : String) (fs ps : List (String × Json)) (nm : String)
        (kv : String × McpToolFn) (emsg : String),
        McpLambdaServer.decodeEventBody ev = .ok body →
        Json.loads body = some (Json.obj fs) →
        Json.isStrVal ((lookupLast fs "method").getD Json.null) "tools/call" = true →
        (lookupLast fs "params").getD (Json.obj []) = Json.obj ps →
        (lookupLast ps "name").getD Json.null = Json.str nm →
        tools.find? (fun kv => kv.1 == nm) = some kv →
        McpLambdaServer.callKwargs kv.2 ((lookupLast ps "arguments").getD (Json.obj []))
          = .error emsg →
        McpLambdaServer.handle tools ev
          = .ok (McpLambdaServer.errorEnvelope ((lookupLast fs "id").getD Json.null) emsg)) := by
  refine ⟨fun _ _ => rfl, ?_, ?_, ?_⟩
  · intro ev body fs ps nm hdec hload hm hp hname hfind
    rw [handle_eq_handleRequest tools ev body (Json.obj fs) hdec hload]
    rw [handleRequest_tools_call tools fs ps hm hp, hname]
    rw [show McpLambdaServer.toolLookup tools (Json.str nm)
        = Except.ok (match tools.find? (fun kv => kv.1 == nm) with
          | some kv => some kv.2
          | none => none) from rfl]
    rw [hfind]
    rfl
  · intro ev body fs hdec hload hl hc
    rw [handle_eq_handleRequest tools ev body (Json.obj fs) hdec hload]
    exact handleRequest_unknown_method tools fs hl hc
  · intro ev body fs ps nm kv emsg hdec hload hm hp hname hfind hcall
    rw [handle_eq_handleRequest tools ev body (Json.obj fs) hdec hload]
    rw [handleRequest_tools_call tools fs ps hm hp, hname]
    rw [show McpLambdaServer.toolLookup tools (Json.str nm)
        = Except.ok (match tools.find? (fun kv => kv.1 == nm) with
          | some kv => some kv.2
          | none => none) from rfl]
    rw [hfind]
    show (match McpLambdaServer.callKwargs kv.2 ((lookupLast ps "arguments").getD (Json.obj []))
      with
      | Except.ok result =>
        Except.ok (McpLambdaServer.responseEnvelope ((lookupLast fs "id").getD Json.null) result)
      | Except.error e =>
        Except.ok (McpLambdaServer.errorEnvelope ((lookupLast fs "id").getD Json.null) e)) = _
    rw [hcall]

set_option maxHeartbeats 2000000 in
/-- Witness for C9: the unknown-tool event against the echo registry, the
unknown-method event, and a registered tool that raises. -/
theorem C9_witness :
    (McpLambdaServer.errorEnvelope (Json.num 7) "Unknown tool: nope").statusCode = 200
    ∧ McpLambdaServer.handle [("echo", echoTool)] unknownToolEvent
        = .ok (McpLambdaServer.errorEnvelope (Json.num 7) ("Unknown tool: " ++ "nope"))
    ∧ McpLambdaServer.handle [("echo", echoTool)] unknownMethodEvent
        = .ok (McpLambdaServer.errorEnvelope (Json.num 8)
            ("Unknown method: " ++ pyStr (Json.str "resources/read")))
    ∧ McpLambdaServer.handle [("bad", raisingTool)] raisingToolEvent
        = .ok (McpLambdaServer.errorEnvelope (Json.num 9) "boom from tool") := by
  refine ⟨(C9_theorem [("echo", echoTool)]).1 (Json.num 7) "Unknown tool: nope", ?_, ?_, ?_⟩
  · exact (C9_theorem [("echo", echoTool)]).2.1 unknownToolEvent unknownToolEvent.body
      [("jsonrpc", Json.str "2.0"), ("method", Json.str "tools/call"),
       ("params", Json.obj [("name", Json.str "nope"), ("arguments", Json.obj [])]),
       ("id", Json.num 7)]
      [("name", Json.str "nope"), ("arguments", Json.obj [])] "nope" rfl rfl rfl rfl rfl rfl
  · exact (C9_theorem [("echo", echoTool)]).2.2.1 unknownMethodEvent unknownMethodEvent.body
      [("jsonrpc", Json.str "2.0"), ("method", Json.str "resources/read"), ("id", Json.num 8)]
      rfl rfl rfl rfl
  · exact (C9_theorem [("bad", raisingTool)]).2.2.2 raisingToolEvent raisingToolEvent.body
      [("jsonrpc", Json.str "2.0"), ("method", Json.str "tools/call"),
       ("params", Json.obj [("name", Json.str "bad"), ("arguments", Json.obj [])]),
       ("id", Json.num 9)]
      [("name", Json.str "bad"), ("arguments", Json.obj [])] "bad" ("bad", raisingTool)
      "boom from tool" rfl rfl rfl rfl rfl rfl rfl

theorem lookupLast_some_mem (fs : List (String × Json)) (k : String) (v : Json)
    (h : lookupLast fs k = some v) : pyKeyMem fs k = true := by
  induction fs with
  | nil => cases h
  | cons f rest ih =>
    unfold lookupLast at h
    unfold pyKeyMem
    simp only [List.any_cons, Bool.or_eq_true]
    split at h
    · rename_i r heq
      right
      exact ih (by rw [heq]; exact h)
    · left
      split at h
      · assumption
      · cases h

theorem lookupLast_none_notmem (fs : List (String × Json)) (k : String)
    (h : lookupLast fs k = none) : pyKeyMem fs k = false := by
  induction fs with
  | nil => rfl
  | cons f rest ih =>
    unfold lookupLast at h
    unfold pyKeyMem
    simp only [List.any_cons, Bool.or_eq_false_iff]
    split at h
    · cases h
    · rename_i heq
      refine ⟨?_, ih heq⟩
      split at h
      · cases h
      · rename_i hcond
        cases hb : (f.1 == k)
        · rfl
        · exact absurd hb hcond

theorem pyIndexKey_obj (k : String) (fs : List (String × Json)) :
    pyIndexKey k (Json.obj fs)
      = (match lookupLast fs k with
         | some x => Except.ok x
         | none => Except.error ("KeyError: " ++ k)) := rfl

theorem pyGet_obj (fs : List (String × Json)) (k : String) (d : Json) :
    pyGet (Json.obj fs) k d = Except.ok ((lookupLast fs k).getD d) := rfl

theorem pyInKey_obj (k : String) (fs : List (String × Json)) :
    pyInKey k (Json.obj fs) = Except.ok (pyKeyMem fs k) := rfl

/-- Unfolding equation of the JSON handler on an object. -/
theorem handleJsonResult_obj (fs : List (String × Json)) :
    handleJsonResult (Json.obj fs)
      = (if pyKeyMem fs "error" = true then
          (pyIndexKey "error" (Json.obj fs)).bind (fun err =>
            (pyGet err "message" (Json.str (pyStr err))).bind (fun error_msg =>
              Except.ok (Json.str ("Error from MCP server: " ++ pyStr error_msg))))
        else if pyKeyMem fs "result" = true then
          (pyIndexKey "result" (Json.obj fs)).bind (fun tool_result =>
            (extractContentText tool_result).bind (contentOrFallback tool_result))
        else Except.ok (Json.str (Json.dumps (Json.obj fs)))) := rfl

/-- Unfolding equation of the shared content extraction on an object. -/
theorem extractContentText_obj (fr : List (String × Json)) :
    extractContentText (Json.obj fr)
      = (if pyKeyMem fr "content" = true then
          (pyIndexKey "content" (Json.obj fr)).bind (fun content =>
            match content with
            | Json.arr (c0 :: _) =>
              (pyInKey "text" c0).bind (fun hasText =>
                if hasText = true then
                  (pyIndexKey "text" c0).bind (fun text =>
                    match text with
                    | Json.null => Except.error pyTypeErrorMsg
                    | Json.bool _ => Except.error pyTypeErrorMsg
                    | Json.num _ => Except.error pyTypeErrorMsg
                    | v => Except.ok (some v))
                else Except.ok none)
            | _ => Except.ok none)
        else Except.ok none) := rfl

/-- The error branch of the JSON handler, for an error object carrying a
message string. -/
theorem handleJsonResult_error (fs fserr : List (String × Json)) (emsg : String)
    (hmem : lookupLast fs "error" = some (Json.obj fserr))
    (hmsg : lookupLast fserr "message" = some (Json.str emsg)) :
    handleJsonResult (Json.obj fs)
      = .ok (Json.str ("Error from MCP server: " ++ emsg)) := by
  rw [handleJsonResult_obj]
  rw [if_pos (lookupLast_some_mem fs "error" _ hmem)]
  rw [pyIndexKey_obj, hmem]
  rw [Except.bind]
  rw [pyGet_obj, hmsg]
  rw [Except.bind]
  rfl

/-- The result branch of the JSON handler reduces to content extraction
with string and serialization fallbacks. -/
theorem handleJsonResult_result (fs : List (String × Json)) (r : Json)
    (hne : lookupLast fs "error" = none)
    (hr : lookupLast fs "result" = some r) :
    handleJsonResult (Json.obj fs)
      = (extractContentText r).bind (contentOrFallback r) := by
  rw [handleJsonResult_obj]
  rw [if_neg, if_pos (lookupLast_some_mem fs "result" _ hr)]
  · rw [pyIndexKey_obj, hr]
    rw [Except.bind]
  · rw [lookupLast_none_notmem fs "error" hne]
    exact Bool.false_ne_true

/-- The fallback branch of the JSON handler: neither error nor result. -/
theorem handleJsonResult_fallback (fs : List (String × Json))
    (hne : lookupLast fs "error" = none)
    (hnr : lookupLast fs "result" = none) :
    handleJsonResult (Json.obj fs) = .ok (Json.str (Json.dumps (Json.obj fs))) := by
  rw [handleJsonResult_obj]
  rw [if_neg, if_neg]
  · rw [lookupLast_none_notmem fs "result" hnr]; exact Bool.false_ne_true
  · rw [lookupLast_none_notmem fs "error" hne]; exact Bool.false_ne_true

/-- A response that is not a JSON object is serialized back whole. -/
theorem handleJsonResult_nonobj (j : Json) (h : j.isObj = false) :
    handleJsonResult j = .ok (Json.str (Json.dumps j)) := by
  cases j with
  | obj fs => cases h
  | null => rfl
  | bool b => rfl
  | num n => rfl
  | str s => rfl
  | arr xs => rfl

/-- Content extraction succeeds on the well-shaped case: a string text
value is returned. -/
theorem extractContentText_text (fr f0 : List (String × Json)) (cs : List Json) (t : String)
    (hc : lookupLast fr "content" = some (Json.arr (Json.obj f0 :: cs)))
    (ht : lookupLast f0 "text" = some (Json.str t)) :
    extractContentText (Json.obj fr) = .ok (some (Json.str t)) := by
  rw [extractContentText_obj]
  rw [if_pos (lookupLast_some_mem fr "content" _ hc)]
  rw [pyIndexKey_obj, hc]
  rw [Except.bind]
  show ((pyInKey "text" (Json.obj f0)).bind (fun hasText =>
      if hasText = true then
        (pyIndexKey "text" (Json.obj f0)).bind (fun text =>
          match text with
          | Json.null => Except.error pyTypeErrorMsg
          | Json.bool _ => Except.error pyTypeErrorMsg
          | Json.num _ => Except.error pyTypeErrorMsg
          | v => Except.ok (some v))
      else Except.ok none)) = Except.ok (some (Json.str t))
  rw [pyInKey_obj, lookupLast_some_mem f0 "text" _ ht]
  rw [Except.bind, if_pos rfl]
  rw [pyIndexKey_obj, ht]
  rw [Except.bind]

/-- A list-valued text field passes the len call in the source and is
returned raw. -/
theorem extractContentText_rawArr (fr f0 : List (String × Json)) (cs xs : List Json)
    (hc : lookupLast fr "content" = some (Json.arr (Json.obj f0 :: cs)))
    (ht : lookupLast f0 "text" = some (Json.arr xs)) :
    extractContentText (Json.obj fr) = .ok (some (Json.arr xs)) := by
  rw [extractContentText_obj]
  rw [if_pos (lookupLast_some_mem fr "content" _ hc)]
  rw [pyIndexKey_obj, hc]
  rw [Except.bind]
  show ((pyInKey "text" (Json.obj f0)).bind (fun hasText =>
      if hasText = true then
        (pyIndexKey "text" (Json.obj f0)).bind (fun text =>
          match text with
          | Json.null => Except.error pyTypeErrorMsg
          | Json.bool _ => Except.error pyTypeErrorMsg
          | Json.num _ => Except.error pyTypeErrorMsg
          | v => Except.ok (some v))
      else Except.ok none)) = Except.ok (some (Json.arr xs))
  rw [pyInKey_obj, lookupLast_some_mem f0 "text" _ ht]
  rw [Except.bind, if_pos rfl]
  rw [pyIndexKey_obj, ht]
  rw [Except.bind]

/-- A dict-valued text field passes the len call in the source and is
returned raw. -/
theorem extractContentText_rawObj (fr f0 g : List (String × Json)) (cs : List Json)
    (hc : lookupLast fr "content" = some (Json.arr (Json.obj f0 :: cs)))
    (ht : lookupLast f0 "text" = some (Json.obj g)) :
    extractContentText (Json.obj fr) = .ok (some (Json.obj g)) := by
  rw [extractContentText_obj]
  rw [if_pos (lookupLast_some_mem fr "content" _ hc)]
  rw [pyIndexKey_obj, hc]
  rw [Except.bind]
  show ((pyInKey "text" (Json.obj f0)).bind (fun hasText =>
      if hasText = true then
        (pyIndexKey "text" (Json.obj f0)).bind (fun text =>
          match text with
          | Json.null => Except.error pyTypeErrorMsg
          | Json.bool _ => Except.error pyTypeErrorMsg
          | Json.num _ => Except.error pyTypeErrorMsg
          | v => Except.ok (some v))
      else Except.ok none)) = Except.ok (some (Json.obj g))
  rw [pyInKey_obj, lookupLast_some_mem f0 "text" _ ht]
  rw [Except.bind, if_pos rfl]
  rw [pyIndexKey_obj, ht]
  rw [Except.bind]

/-- Content extraction falls through on a non-object result. -/
theorem extractContentText_nonobj (r : Json) (h : r.isObj = false) :
    extractContentText r = .ok none := by
  cases r with
  | obj fs => cases h
  | null => rfl
  | bool b => rfl
  | num n => rfl
  | str s => rfl
  | arr xs => rfl

/-- Content extraction falls through when there is no content key. -/
theorem extractContentText_nokey (fr : List (String × Json))
    (h : lookupLast fr "content" = none) :
    extractContentText (Json.obj fr) = .ok none := by
  rw [extractContentText_obj]
  rw [if_neg]
  rw [lookupLast_none_notmem fr "content" h]
  exact Bool.false_ne_true

/-- Content extraction falls through when content is not a non-empty
list. -/
theorem extractContentText_notlist (fr : List (String × Json)) (c : Json)
    (hc : lookupLast fr "content" = some c)
    (h : ∀ c0 cs, c ≠ Json.arr (c0 :: cs)) :
    extractContentText (Json.obj fr) = .ok none := by
  rw [extractContentText_obj]
  rw [if_pos (lookupLast_some_mem fr "content" _ hc)]
  rw [pyIndexKey_obj, hc]
  rw [Except.bind]
  cases c with
  | arr xs =>
    cases xs with
    | nil => rfl
    | cons c0 cs => exact absurd rfl (h c0 cs)
  | null => rfl
  | bool b => rfl
  | num n => rfl
  | str s => rfl
  | obj fs => rfl

/-- Content extraction falls through when the first element is an object
without a text field. -/
theorem extractContentText_notext (fr f0 : List (String × Json)) (cs : List Json)
    (hc : lookupLast fr "content" = some (Json.arr (Json.obj f0 :: cs)))
    (ht : lookupLast f0 "text" = none) :
    extractContentText (Json.obj fr) = .ok none := by
  rw [extractContentText_obj]
  rw [if_pos (lookupLast_some_mem fr "content" _ hc)]
  rw [pyIndexKey_obj, hc]
  rw [Except.bind]
  show ((pyInKey "text" (Json.obj f0)).bind (fun hasText =>
      if hasText = true then
        (pyIndexKey "text" (Json.obj f0)).bind (fun text =>
          match text with
          | Json.null => Except.error pyTypeErrorMsg
          | Json.bool _ => Except.error pyTypeErrorMsg
          | Json.num _ => Except.error pyTypeErrorMsg
          | v => Except.ok (some v))
      else Except.ok none)) = Except.ok none
  rw [pyInKey_obj, lookupLast_none_notmem f0 "text" ht]
  rw [Except.bind, if_neg]
  exact Bool.false_ne_true

theorem getKey?_some_obj (j : Json) (k : String) (v : Json) (h : j.getKey? k = some v) :
    ∃ fs, j = Json.obj fs ∧ lookupLast fs k = some v := by
  cases j with
  | obj fs => exact ⟨fs, rfl, h⟩
  | null => cases h
  | bool b => cases h
  | num n => cases h
  | str s => cases h
  | arr xs => cases h

/-- The value call_tool returns for a 2xx JSON (non-SSE) response is the
JSON handler result, with a raised exception converted by the generic
except clause. -/
theorem callToolResult_json (status : Nat) (ct : String) (hdr : Option String) (body : String)
    (j : Json) (hstat : 200 ≤ status ∧ status < 300)
    (hct : strContains ct "text/event-stream" = false)
    (hload : Json.loads body = some j) :
    callToolResult (HttpOutcome.response status ct hdr body)
      = (match handleJsonResult j with
         | .ok v => v
         | .error m => Json.str ("Error: " ++ m)) := by
  unfold callToolResult
  rw [show handleToolResponse (HttpOutcome.response status ct hdr body)
      = (if 200 ≤ status ∧ status < 300 then
           if strContains ct "text/event-stream" = true then
             match handleSseBody body with
             | Except.ok v => Except.ok v
             | Except.error m => Except.error (PyExc.other m)
           else
             match Json.loads body with
             | none => Except.error (PyExc.other jsonDecodeMsg)
             | some j2 =>
               match handleJsonResult j2 with
               | Except.ok v => Except.ok v
               | Except.error m => Except.error (PyExc.other m)
         else Except.error (PyExc.httpError (httpStatusMsg status))) from rfl]
  rw [if_pos hstat, if_neg (by rw [hct]; exact Bool.false_ne_true)]
  rw [hload]
  show (match (match handleJsonResult j with
        | Except.ok v => (Except.ok v : Except PyExc Json)
        | Except.error m => Except.error (PyExc.other m)) with
      | Except.ok v => v
      | Except.error (PyExc.httpError m) => Json.str ("Error calling tool: " ++ m)
      | Except.error (PyExc.other m) => Json.str ("Error: " ++ m)) = _
  rcases hh : handleJsonResult j with m | v <;> rfl

/-- A non-2xx tools/call response never reaches body handling:
raise_for_status raises httpx.HTTPStatusError, which the first except
clause converts to the prefixed message. -/
theorem callToolResult_badstatus (status : Nat) (ct : String) (hdr : Option String)
    (body : String) (hstat : ¬ (200 ≤ status ∧ status < 300)) :
    callToolResult (HttpOutcome.response status ct hdr body)
      = Json.str ("Error calling tool: " ++ httpStatusMsg status) := by
  unfold callToolResult
  rw [show handleToolResponse (HttpOutcome.response status ct hdr body)
      = (if 200 ≤ status ∧ status < 300 then
           if strContains ct "text/event-stream" = true then
             match handleSseBody body with
             | Except.ok v => Except.ok v
             | Except.error m => Except.error (PyExc.other m)
           else
             match Json.loads body with
             | none => Except.error (PyExc.other jsonDecodeMsg)
             | some j2 =>
               match handleJsonResult j2 with
               | Except.ok v => Except.ok v
               | Except.error m => Except.error (PyExc.other m)
         else Except.error (PyExc.httpError (httpStatusMsg status))) from rfl]
  rw [if_neg hstat]

/-- Claim C2 (corrected): the JSON response handling of call_tool.  Only a
2xx response reaches the body: raise_for_status raises for every other
status (1xx and 3xx included) and the first except clause returns an
"Error calling tool: " string.  On a 2xx JSON response the returned value
is the JSON handler result, with raised exceptions converted by the
generic except clause; then branch by branch: a server error object yields
the formatted error string with the server message; a result whose content
is a non-empty list whose first element is an object with a string text
field yields exactly that text; a list- or dict-valued text field passes
the len check in the source and is returned raw, not as a string; a string
result is returned verbatim; a result without such a content shape is
returned JSON-serialized, provided the content value (if any) is not a
non-empty list with a malformed first element - in that remaining case the
membership test or subscript raises in the source and the except clause
returns an "Error: " string instead of the serialized result, which
refutes the claim as frozen (see the counterexample); a body with neither
error nor result is serialized back whole. -/
theorem C2_theorem (st : ClientState) (n : String) (a : Json) (i1 i2 : HttpOutcome)
    (status : Nat) (ct : String) (hdr : Option String) (body : String) (j : Json)
    (hct : strContains ct "text/event-stream" = false)
    (hload : Json.loads body = some j) :
    (200 ≤ status ∧ status < 300 →
      (call_tool st n a i1 i2 (HttpOutcome.response status ct hdr body)).1
        = match handleJsonResult j with
          | .ok v => v
          | .error m => Json.str ("Error: " ++ m))
    ∧ (¬ (200 ≤ status ∧ status < 300) →
      (call_tool st n a i1 i2 (HttpOutcome.response status ct hdr body)).1
        = Json.str ("Error calling tool: " ++ httpStatusMsg status))
    ∧ (∀ fserr emsg, j.getKey? "error" = some (Json.obj fserr) →
        lookupLast fserr "message" = some (Json.str emsg) →
        handleJsonResult j = .ok (Json.str ("Error from MCP server: " ++ emsg)))
    ∧ (∀ r f0 cs t, j.getKey? "error" = none → j.getKey? "result" = some r →
        r.getKey? "content" = some (Json.arr (Json.obj f0 :: cs)) →
        lookupLast f0 "text" = some (Json.str t) →
        handleJsonResult j = .ok (Json.str t))
    ∧ (∀ r f0 cs xs, j.getKey? "error" = none → j.getKey? "result" = some r →
        r.getKey? "content" = some (Json.arr (Json.obj f0 :: cs)) →
        lookupLast f0 "text" = some (Json.arr xs) →
        handleJsonResult j = .ok (Json.arr xs))
    ∧ (∀ r f0 cs g, j.getKey? "error" = none → j.getKey? "result" = some r →
        r.getKey? "content" = some (Json.arr (Json.obj f0 :: cs)) →
        lookupLast f0 "text" = some (Json.obj g) →
        handleJsonResult j = .ok (Json.obj g))
    ∧ (∀ s, j.getKey? "error" = none → j.getKey? "result" = some (Json.str s) →
        handleJsonResult j = .ok (Json.str s))
    ∧ (∀ r, j.getKey? "error" = none → j.getKey? "result" = some r →
        r.isStr = false → r.getKey? "content" = none →
        handleJsonResult j = .ok (Json.str (Json.dumps r)))
    ∧ (∀ r c, j.getKey? "error" = none → j.getKey? "result" = some r →
        r.getKey? "content" = some c → (∀ c0 cs, c ≠ Json.arr (c0 :: cs)) →
        handleJsonResult j = .ok (Json.str (Json.dumps r)))
    ∧ (∀ r f0 cs, j.getKey? "error" = none → j.getKey? "result" = some r →
        r.getKey? "content" = some (Json.arr (Json.obj f0 :: cs)) →
        lookupLast f0 "text" = none →
        handleJsonResult j = .ok (Json.str (Json.dumps r)))
    ∧ (∀ r m, j.getKey? "error" = none → j.getKey? "result" = some r →
        extractContentText r = .error m →
        handleJsonResult j = .error m)
    ∧ (j.getKey? "error" = none → j.getKey? "result" = none →
        handleJsonResult j = .ok (Json.str (Json.dumps j))) := by
  refine ⟨?_, ?_, ?_, ?_, ?_, ?_, ?_, ?_, ?_, ?_, ?_, ?_⟩
  · intro hstat
    rw [call_tool_fst]
    exact callToolResult_json status ct hdr body j hstat hct hload
  · intro hstat
    rw [call_tool_fst]
    exact callToolResult_badstatus status ct hdr body hstat
  · intro fserr emsg herr hmsg
    obtain ⟨fs, rfl, hmem⟩ := getKey?_some_obj j "error" _ herr
    exact handleJsonResult_error fs fserr emsg hmem hmsg
  · intro r f0 cs t herr hres hcontent htext
    obtain ⟨fs, rfl, hmem⟩ := getKey?_some_obj j "result" _ hres
    obtain ⟨fr, rfl, hc⟩ := getKey?_some_obj r "content" _ hcontent
    rw [handleJsonResult_result fs _ herr hmem]
    rw [extractContentText_text fr f0 cs t hc htext]
    rfl
  · intro r f0 cs xs herr hres hcontent htext
    obtain ⟨fs, rfl, hmem⟩ := getKey?_some_obj j "result" _ hres
    obtain ⟨fr, rfl, hc⟩ := getKey?_some_obj r "content" _ hcontent
    rw [handleJsonResult_result fs _ herr hmem]
    rw [extractContentText_rawArr fr f0 cs xs hc htext]
    rfl
  · intro r f0 cs g herr hres hcontent htext
    obtain ⟨fs, rfl, hmem⟩ := getKey?_some_obj j "result" _ hres
    obtain ⟨fr, rfl, hc⟩ := getKey?_some_obj r "content" _ hcontent
    rw [handleJsonResult_result fs _ herr hmem]
    rw [extractContentText_rawObj fr f0 g cs hc htext]
    rfl
  · intro s herr hres
    obtain ⟨fs, rfl, hmem⟩ := getKey?_some_obj j "result" _ hres
    rw [handleJsonResult_result fs _ herr hmem]
    rw [extractContentText_nonobj (Json.str s) rfl]
    rfl
  · intro r herr hres hstr hcontent
    obtain ⟨fs, rfl, hmem⟩ := getKey?_some_obj j "result" _ hres
    rw [handleJsonResult_result fs _ herr hmem]
    cases r with
    | obj fr =>
      rw [extractContentText_nokey fr hcontent]
      rfl
    | str s => cases hstr
    | null => rfl
    | bool b => rfl
    | num n2 => rfl
    | arr xs => rfl
  · intro r c herr hres hcontent hnlist
    obtain ⟨fs, rfl, hmem⟩ := getKey?_some_obj j "result" _ hres
    obtain ⟨fr, rfl, hc⟩ := getKey?_some_obj r "content" _ hcontent
    rw [handleJsonResult_result fs _ herr hmem]
    rw [extractContentText_notlist fr c hc hnlist]
    rfl
  · intro r f0 cs herr hres hcontent htext
    obtain ⟨fs, rfl, hmem⟩ := getKey?_some_obj j "result" _ hres
    obtain ⟨fr, rfl, hc⟩ := getKey?_some_obj r "content" _ hcontent
    rw [handleJsonResult_result fs _ herr hmem]
    rw [extractContentText_notext fr f0 cs hc htext]
    rfl
  · intro r m herr hres hext
    obtain ⟨fs, rfl, hmem⟩ := getKey?_some_obj j "result" _ hres
    rw [handleJsonResult_result fs _ herr hmem]
    rw [hext]
    rfl
  · intro herr hres
    cases j with
    | obj fs => exact handleJsonResult_fallback fs herr hres
    | null => rfl
    | bool b => rfl
    | num n2 => rfl
    | str s => rfl
    | arr xs => rfl

/-- Counterexample for C2 as frozen: the body parses to a response whose
result is an object with a content list whose first element is the number
5; the claim requires the JSON-serialized result, but in the source the
membership test on the number raises a TypeError which the except clause
converts to an "Error: " string. -/
theorem C2_counterexample :
    (Json.loads malformedContentBody).map (fun j => j.getKey? "result")
      = some (some (Json.obj [("content", Json.arr [Json.num 5])]))
    ∧ (call_tool readyClient "t" (Json.obj []) dummyOutcome dummyOutcome
        jsonOutcomeMalformed).1 = "Error: " ++ pyTypeErrorMsg
    ∧ "Error: " ++ pyTypeErrorMsg
        ≠ Json.dumps (Json.obj [("content", Json.arr [Json.num 5])]) :=
  ⟨rfl, rfl, by decide⟩

/-- Witness for C2 at concrete bodies: the spec example returning X, a 302
response stopped by raise_for_status, the error envelope containing boom,
a raw list-valued text field, and the whole-response fallback. -/
theorem C2_witness :
    handleJsonResult (Json.obj
        [("jsonrpc", Json.str "2.0"),
         ("result", Json.obj [("content", Json.arr [Json.obj [("text", Json.str "X")]])]),
         ("id", Json.num 1)])
      = .ok (Json.str "X")
    ∧ (call_tool readyClient "t" (Json.obj []) dummyOutcome dummyOutcome
        (HttpOutcome.response 200 "application/json" none goodTextBody)).1 = Json.str "X"
    ∧ (call_tool readyClient "t" (Json.obj []) dummyOutcome dummyOutcome
        (HttpOutcome.response 302 "application/json" none goodTextBody)).1
        = Json.str ("Error calling tool: " ++ httpStatusMsg 302)
    ∧ handleJsonResult (Json.obj [("error", Json.obj [("message", Json.str "boom")]),
        ("id", Json.num 1)])
      = .ok (Json.str "Error from MCP server: boom")
    ∧ (call_tool readyClient "t" (Json.obj []) dummyOutcome dummyOutcome
        (HttpOutcome.response 200 "application/json" none errBody)).1
        = Json.str "Error from MCP server: boom"
    ∧ handleJsonResult (Json.obj
        [("result", Json.obj
          [("content", Json.arr [Json.obj [("text", Json.arr [Json.num 1])]])])])
      = .ok (Json.arr [Json.num 1])
    ∧ handleJsonResult (Json.obj [("jsonrpc", Json.str "2.0")])
      = .ok (Json.str (Json.dumps (Json.obj [("jsonrpc", Json.str "2.0")]))) := by
  have hgood := C2_theorem readyClient "t" (Json.obj []) dummyOutcome dummyOutcome
    200 "application/json" none goodTextBody
    (Json.obj
      [("jsonrpc", Json.str "2.0"),
       ("result", Json.obj [("content", Json.arr [Json.obj [("text", Json.str "X")]])]),
       ("id", Json.num 1)]) rfl rfl
  have hredir := C2_theorem readyClient "t" (Json.obj []) dummyOutcome dummyOutcome
    302 "application/json" none goodTextBody
    (Json.obj
      [("jsonrpc", Json.str "2.0"),
       ("result", Json.obj [("content", Json.arr [Json.obj [("text", Json.str "X")]])]),
       ("id", Json.num 1)]) rfl rfl
  have herr := C2_theorem readyClient "t" (Json.obj []) dummyOutcome dummyOutcome
    200 "application/json" none errBody
    (Json.obj [("error", Json.obj [("message", Json.str "boom")]), ("id", Json.num 1)]) rfl rfl
  have hraw := C2_theorem readyClient "t" (Json.obj []) dummyOutcome dummyOutcome
    200 "application/json" none
    "\x7b\"result\": \x7b\"content\": [\x7b\"text\": [1]\x7d]\x7d\x7d"
    (Json.obj
      [("result", Json.obj
        [("content", Json.arr [Json.obj [("text", Json.arr [Json.num 1])]])])]) rfl rfl
  have h1 := hgood.2.2.2.1 (Json.obj [("content", Json.arr [Json.obj [("text", Json.str "X")]])])
    [("text", Json.str "X")] [] "X" rfl rfl rfl rfl
  have h2 := herr.2.2.1 [("message", Json.str "boom")] "boom" rfl rfl
  have h3 := hraw.2.2.2.2.1
    (Json.obj [("content", Json.arr [Json.obj [("text", Json.arr [Json.num 1])]])])
    [("text", Json.arr [Json.num 1])] [] [Json.num 1] rfl rfl rfl rfl
  refine ⟨h1, ?_, ?_, ?_, ?_, h3, ?_⟩
  · rw [hgood.1 (by decide), h1]
  · exact hredir.2.1 (by decide)
  · rw [h2]
    rfl
  · rw [herr.1 (by decide), h2]
    rfl
  · exact C2_theorem readyClient "t" (Json.obj []) dummyOutcome dummyOutcome
      200 "application/json" none "\x7b\"jsonrpc\": \"2.0\"\x7d"
      (Json.obj [("jsonrpc", Json.str "2.0")]) rfl rfl
      |>.2.2.2.2.2.2.2.2.2.2.2 rfl rfl

/-- The value call_tool returns for a 2xx SSE response is the SSE handler
result, with a raised exception converted by the generic except clause. -/
theorem callToolResult_sse (status : Nat) (ct : String) (hdr : Option String) (body : String)
    (hstat : 200 ≤ status ∧ status < 300)
    (hct : strContains ct "text/event-stream" = true) :
    callToolResult (HttpOutcome.response status ct hdr body)
      = (match handleSseBody body with
         | .ok v => v
         | .error m => Json.str ("Error: " ++ m)) := by
  unfold callToolResult
  rw [show handleToolResponse (HttpOutcome.response status ct hdr body)
      = (if 200 ≤ status ∧ status < 300 then
           if strContains ct "text/event-stream" = true then
             match handleSseBody body with
             | Except.ok v => Except.ok v
             | Except.error m => Except.error (PyExc.other m)
           else
             match Json.loads body with
             | none => Except.error (PyExc.other jsonDecodeMsg)
             | some j2 =>
               match handleJsonResult j2 with
               | Except.ok v => Except.ok v
               | Except.error m => Except.error (PyExc.other m)
         else Except.error (PyExc.httpError (httpStatusMsg status))) from rfl]
  rw [if_pos hstat, if_pos hct]
  rcases hh : handleSseBody body with m | v <;> rfl

theorem sseScan_found (l : String) (ls : List String) (v : Json)
    (h : sseExtractLine l = .ok (some v)) :
    sseScan (l :: ls) = .ok (some v) := by
  show (sseExtractLine l).bind _ = _
  rw [h, Except.bind]

theorem sseScan_error (l : String) (ls : List String) (m : String)
    (h : sseExtractLine l = .error m) :
    sseScan (l :: ls) = .error m := by
  show (sseExtractLine l).bind _ = _
  rw [h]
  rfl

theorem sseScan_skip (l : String) (ls : List String)
    (h : sseExtractLine l = .ok none) :
    sseScan (l :: ls) = sseScan ls := by
  show (sseExtractLine l).bind _ = _
  rw [h, Except.bind]

theorem sseScan_append_none (pre rest : List String)
    (h : ∀ l ∈ pre, sseExtractLine l = .ok none) :
    sseScan (pre ++ rest) = sseScan rest := by
  induction pre with
  | nil => rfl
  | cons l ls ih =>
    rw [List.cons_append, sseScan_skip l _ (h l (List.mem_cons_self l ls))]
    exact ih (fun l2 hl2 => h l2 (List.mem_cons_of_mem l hl2))

theorem sseScan_all_none (ls : List String)
    (h : ∀ l ∈ ls, sseExtractLine l = .ok none) :
    sseScan ls = .ok none := by
  have := sseScan_append_none ls [] h
  rw [List.append_nil] at this
  rw [this]
  rfl

/-- A line without the data prefix is skipped. -/
theorem sseExtractLine_nondata (l : String) (h : pyStartsWith l "data: " = false) :
    sseExtractLine l = .ok none := by
  unfold sseExtractLine
  rw [if_neg]
  rw [h]
  exact Bool.false_ne_true

/-- A data line whose payload is not valid JSON is skipped: the inner
except clause catches the JSONDecodeError and continues. -/
theorem sseExtractLine_badjson (l : String)
    (hpre : pyStartsWith l "data: " = true)
    (hload : Json.loads (pyDrop l 6) = none) :
    sseExtractLine l = .ok none := by
  unfold sseExtractLine
  rw [if_pos hpre, hload]

/-- A data line with the full result.content[0].text shape returns that
text. -/
theorem sseExtractLine_shape (l : String) (j : Json) (fr f0 : List (String × Json))
    (cs : List Json) (t : String)
    (hpre : pyStartsWith l "data: " = true)
    (hload : Json.loads (pyDrop l 6) = some j)
    (hres : j.getKey? "result" = some (Json.obj fr))
    (hc : lookupLast fr "content" = some (Json.arr (Json.obj f0 :: cs)))
    (ht : lookupLast f0 "text" = some (Json.str t)) :
    sseExtractLine l = .ok (some (Json.str t)) := by
  unfold sseExtractLine
  rw [if_pos hpre, hload]
  obtain ⟨fs, rfl, hmem⟩ := getKey?_some_obj j "result" _ hres
  show (if pyKeyMem fs "result" = true then
      (pyIndexKey "result" (Json.obj fs)).bind extractContentText
    else Except.ok none) = Except.ok (some (Json.str t))
  rw [if_pos (lookupLast_some_mem fs "result" _ hmem)]
  rw [pyIndexKey_obj, hmem, Except.bind]
  exact extractContentText_text fr f0 cs t hc ht

theorem handleSseBody_found (body : String) (pre : List String) (l : String)
    (post : List String) (v : Json)
    (hsplit : pySplitNl (pyStrip body) = pre ++ l :: post)
    (hpre : ∀ l2 ∈ pre, sseExtractLine l2 = .ok none)
    (hl : sseExtractLine l = .ok (some v)) :
    handleSseBody body = .ok v := by
  unfold handleSseBody
  rw [hsplit, sseScan_append_none pre _ hpre, sseScan_found l post v hl, Except.bind]

theorem handleSseBody_none (body : String)
    (h : ∀ l ∈ pySplitNl (pyStrip body), sseExtractLine l = .ok none) :
    handleSseBody body = .ok (Json.str "Error: Could not parse SSE stream response") := by
  unfold handleSseBody
  rw [sseScan_all_none _ h, Except.bind]

theorem handleSseBody_error (body : String) (pre : List String) (l : String)
    (post : List String) (m : String)
    (hsplit : pySplitNl (pyStrip body) = pre ++ l :: post)
    (hpre : ∀ l2 ∈ pre, sseExtractLine l2 = .ok none)
    (hl : sseExtractLine l = .error m) :
    handleSseBody body = .error m := by
  unfold handleSseBody
  rw [hsplit, sseScan_append_none pre _ hpre, sseScan_error l post m hl]
  rfl

/-- Claim C5 (corrected): SSE response handling of call_tool.  Only a 2xx
response reaches the body: raise_for_status raises for every other status
and the first except clause returns an "Error calling tool: " string.  On
a 2xx SSE response the body is stripped and split on newlines; the
returned value is the text field of the first element of result.content of
the first data-prefixed line that parses as JSON and has that full shape;
lines without the prefix or with unparseable payloads are skipped.  For a
body with no such line the handler returns without raising, but not always
the generic parse-failure string the claim promises: when a scanned data
line parses to a result whose content list starts with a malformed
element, the source raises a TypeError past the inner except and returns
the caught exception text as "Error: <message>" instead (see the
counterexample). -/
theorem C5_theorem (st : ClientState) (n : String) (a : Json) (i1 i2 : HttpOutcome)
    (status : Nat) (ct : String) (hdr : Option String) (body : String)
    (hct : strContains ct "text/event-stream" = true) :
    (200 ≤ status ∧ status < 300 →
      (call_tool st n a i1 i2 (HttpOutcome.response status ct hdr body)).1
        = match handleSseBody body with
          | .ok v => v
          | .error m => Json.str ("Error: " ++ m))
    ∧ (¬ (200 ≤ status ∧ status < 300) →
      (call_tool st n a i1 i2 (HttpOutcome.response status ct hdr body)).1
        = Json.str ("Error calling tool: " ++ httpStatusMsg status))
    ∧ (∀ pre l post v, 200 ≤ status ∧ status < 300 →
        pySplitNl (pyStrip body) = pre ++ l :: post →
        (∀ l2 ∈ pre, sseExtractLine l2 = .ok none) →
        sseExtractLine l = .ok (some v) →
        (call_tool st n a i1 i2 (HttpOutcome.response status ct hdr body)).1 = v)
    ∧ (200 ≤ status ∧ status < 300 →
        (∀ l ∈ pySplitNl (pyStrip body), sseExtractLine l = .ok none) →
        (call_tool st n a i1 i2 (HttpOutcome.response status ct hdr body)).1
          = Json.str "Error: Could not parse SSE stream response")
    ∧ (∀ pre l post m, 200 ≤ status ∧ status < 300 →
        pySplitNl (pyStrip body) = pre ++ l :: post →
        (∀ l2 ∈ pre, sseExtractLine l2 = .ok none) →
        sseExtractLine l = .error m →
        (call_tool st n a i1 i2 (HttpOutcome.response status ct hdr body)).1
          = Json.str ("Error: " ++ m))
    ∧ (∀ l j fr f0 cs t, pyStartsWith l "data: " = true →
        Json.loads (pyDrop l 6) = some j →
        j.getKey? "result" = some (Json.obj fr) →
        lookupLast fr "content" = some (Json.arr (Json.obj f0 :: cs)) →
        lookupLast f0 "text" = some (Json.str t) →
        sseExtractLine l = .ok (some (Json.str t)))
    ∧ (∀ l, pyStartsWith l "data: " = false → sseExtractLine l = .ok none)
    ∧ (∀ l, pyStartsWith l "data: " = true → Json.loads (pyDrop l 6) = none →
        sseExtractLine l = .ok none) := by
  refine ⟨?_, ?_, ?_, ?_, ?_, ?_, ?_, ?_⟩
  · intro hstat
    rw [call_tool_fst]
    exact callToolResult_sse status ct hdr body hstat hct
  · intro hstat
    rw [call_tool_fst]
    exact callToolResult_badstatus status ct hdr body hstat
  · intro pre l post v hstat hsplit hpre hl
    rw [call_tool_fst, callToolResult_sse status ct hdr body hstat hct,
        handleSseBody_found body pre l post v hsplit hpre hl]
  · intro hstat h
    rw [call_tool_fst, callToolResult_sse status ct hdr body hstat hct,
        handleSseBody_none body h]
  · intro pre l post m hstat hsplit hpre hl
    rw [call_tool_fst, callToolResult_sse status ct hdr body hstat hct,
        handleSseBody_error body pre l post m hsplit hpre hl]
  · exact fun l j fr f0 cs t h1 h2 h3 h4 h5 => sseExtractLine_shape l j fr f0 cs t h1 h2 h3 h4 h5
  · exact fun l h => sseExtractLine_nondata l h
  · exact fun l h1 h2 => sseExtractLine_badjson l h1 h2

/-- Counterexample for C5 as frozen: a body whose single data line parses
but whose result.content starts with a number; no line has the claimed
shape, yet call_tool returns the caught TypeError text, not the generic
parse-failure string. -/
theorem C5_counterexample :
    (call_tool readyClient "t" (Json.obj []) dummyOutcome dummyOutcome sseOutcomeMalformed).1
      = "Error: " ++ pyTypeErrorMsg
    ∧ "Error: " ++ pyTypeErrorMsg ≠ "Error: Could not parse SSE stream response"
    ∧ sseExtractLine ("data: " ++ malformedContentBody) = Except.error pyTypeErrorMsg :=
  ⟨rfl, by decide, rfl⟩

set_option maxHeartbeats 2000000 in
/-- Witness for C5: the spec example body yields Y (its first line is a
non-data line that is skipped), a body with no data line yields the
generic parse-failure string, and a 500 response is stopped by
raise_for_status. -/
theorem C5_witness :
    (call_tool readyClient "t" (Json.obj []) dummyOutcome dummyOutcome
      (HttpOutcome.response 200 "text/event-stream" none goodSseBody)).1 = Json.str "Y"
    ∧ (call_tool readyClient "t" (Json.obj []) dummyOutcome dummyOutcome
      (HttpOutcome.response 200 "text/event-stream" none "hello")).1
        = Json.str "Error: Could not parse SSE stream response"
    ∧ (call_tool readyClient "t" (Json.obj []) dummyOutcome dummyOutcome
      (HttpOutcome.response 500 "text/event-stream" none goodSseBody)).1
        = Json.str ("Error calling tool: " ++ httpStatusMsg 500) := by
  refine ⟨?_, ?_, ?_⟩
  · refine (C5_theorem readyClient "t" (Json.obj []) dummyOutcome dummyOutcome
      200 "text/event-stream" none goodSseBody rfl).2.2.1
      ["event: message"]
      "data: \x7b\"result\": \x7b\"content\": [\x7b\"text\": \"Y\"\x7d]\x7d\x7d" []
      (Json.str "Y") (by decide) rfl ?_ rfl
    intro l2 hl2
    cases hl2 with
    | head => rfl
    | tail _ h2 => cases h2
  · refine (C5_theorem readyClient "t" (Json.obj []) dummyOutcome dummyOutcome
      200 "text/event-stream" none "hello" rfl).2.2.2.1 (by decide) ?_
    intro l hl
    cases hl with
    | head => rfl
    | tail _ h2 => cases h2
  · exact (C5_theorem readyClient "t" (Json.obj []) dummyOutcome dummyOutcome
      500 "text/event-stream" none goodSseBody rfl).2.1 (by decide)
